import Mathlib

/-!
Verification development for the textile-ERP payment reconciliation core.

The definitions below are a shallow embedding of the Python source:

* app/services/payment_service.py  — pure status/interest functions and the
  bulk/single reconciliation aggregation over the payments collection;
* app/routers/payments.py          — create_sales_receipt, create_receipt,
  edit_payment, delete_payment;
* app/routers/invoices.py          — delete_invoice;
* app/routers/purchase_invoices.py — delete_challan;
* app/services/inventory_service.py — create_transfer, reverse_transfer.

Modelling conventions: Python floats are embedded as exact rationals (ℚ),
Mongo ObjectIds as naturals, datetimes as integer UNIX seconds.  The store
is restricted to a single company/financial year (every operation in scope
filters on the current company, so the multi-company scoping is invisible
to the properties proved here).  Fields that no operation in scope reads or
that are pure presentation metadata (invoice_no strings inside allocation
lines, audit logs, created_at timestamps) are omitted; every field an
operation in scope reads or writes is present.
-/

/-- One allocation line inside a Payment's `invoices` array: Mongo documents
carry either an `invoice_id` key (sales receipts) or a `challan_id` key
(purchase payments); presence of the key is modelled with `Option`. -/
structure AllocationLine where
  invoice_id : Option Nat
  challan_id : Option Nat
  amount : ℚ
  deriving DecidableEq, Repr

/-- A document of the `payments` collection.  Scalar metadata fields are the
union of what create_sales_receipt, create_receipt and edit_payment write
(Mongo is schemaless; fields a given writer does not set default to 0/none
here). -/
structure Payment where
  id : Nat
  payment_no : String
  payment_type : String
  party_id : Option Nat
  supplier_id : Option Nat
  invoices : List AllocationLine
  cheque_amount : ℚ
  amount_disburse : ℚ
  balance_amount : ℚ
  outstanding : ℚ
  amount : ℚ
  disbursement : ℚ
  notes_rs : ℚ
  kasar : ℚ
  interest : ℚ
  bank_name : Option String
  cheque_no : Option String
  rr : Option String
  effect_on_passbook : Bool
  updated_at : Option Int
  deriving DecidableEq, Repr

/-- A document of the `sales_invoices` collection (the fields the payment
paths read and write). -/
structure Invoice where
  id : Nat
  total_amount : ℚ
  total_paid : ℚ
  outstanding : ℚ
  payment_status : String
  deriving DecidableEq, Repr

/-- A document of the `purchase_challans` collection as seen by the payment
paths (the inventory-transfer subsystem has its own view further down). -/
structure ChallanDoc where
  id : Nat
  total_amount : ℚ
  total_paid : ℚ
  outstanding : ℚ
  payment_status : Option String
  deriving DecidableEq, Repr

/-- The document store restricted to the collections the payment paths
touch.  `parties` is the set of existing party ids (customers/suppliers). -/
structure Store where
  payments : List Payment
  sales_invoices : List Invoice
  purchase_challans : List ChallanDoc
  parties : List Nat
  deriving DecidableEq, Repr

/-! ## payment_service.py — pure status and interest functions -/

/-- app/services/payment_service.py, determine_invoice_payment_status:
if total_paid >= total_amount - 0.01 then "paid" elif total_paid > 0 then
"partial" else "unpaid". -/
def determine_invoice_payment_status (total_amount total_paid : ℚ) : String :=
  if total_paid ≥ total_amount - 0.01 then "paid"
  else if total_paid > 0 then "partial"
  else "unpaid"

/-- app/services/payment_service.py, determine_challan_payment_status:
if total_paid >= total_amount then "completed" elif total_paid > 0 then
"partial" else None.  Note: no 0.01 tolerance on this side. -/
def determine_challan_payment_status (total_amount total_paid : ℚ) : Option String :=
  if total_paid ≥ total_amount then some "completed"
  else if total_paid > 0 then some "partial"
  else none

/-- app/services/payment_service.py, calculate_interest.  Datetimes are
UNIX seconds; `(now - due_date).days` is floor division of the elapsed
seconds by 86400 (only reached when the difference is positive).  The
Python `as_of` default of `datetime.utcnow()` is modelled by the caller
always passing the resolved instant. -/
def calculate_interest (total_amount total_paid : ℚ) (due_date : Option Int)
    (interest_rate : ℚ) (as_of : Int) : ℚ :=
  match due_date with
  | none => 0
  | some dd =>
    if interest_rate ≤ 0 then 0
    else if as_of ≤ dd then 0
    else
      let overdue_days : Int := (as_of - dd).fdiv 86400
      let balance := total_amount - total_paid
      if balance ≤ 0 then 0
      else (balance * interest_rate * (overdue_days : ℚ)) / (365 * 100)

/-! ## payment_service.py — bulk reconciliation aggregation

The Mongo pipeline is
  match payments owning a matching line → unwind `invoices` →
  match lines against the input id set → group-sum `amount` by target id.
The invoice and challan variants differ only in the allocation-line key
(`invoices.invoice_id` vs `invoices.challan_id`); the shared pipeline is
parameterised by that key selector and instantiated twice, mirroring the
two near-identical Python functions. -/

/-- True when an allocation line references one of the input ids through
the given key (the `$match` predicate on an unwound line). -/
def lineMatches (key : AllocationLine → Option Nat) (ids : List Nat)
    (l : AllocationLine) : Bool :=
  match key l with
  | some i => ids.contains i
  | none => false

/-- True when a payment owns at least one matching allocation line (the
first `$match` stage, on whole payment documents). -/
def paymentMatches (key : AllocationLine → Option Nat) (ids : List Nat)
    (p : Payment) : Bool :=
  p.invoices.any (lineMatches key ids)

/-- The `$group` accumulator: add one (key, amount) pair into the grouped
result, summing amounts under an existing key and appending a new group
otherwise. -/
def addEntry (acc : List (Nat × ℚ)) (kv : Nat × ℚ) : List (Nat × ℚ) :=
  match acc with
  | [] => [kv]
  | (k, v) :: rest =>
    if k = kv.1 then (k, v + kv.2) :: rest else (k, v) :: addEntry rest kv

/-- `$group` with `$sum` over a stream of (key, amount) pairs. -/
def groupSum (l : List (Nat × ℚ)) : List (Nat × ℚ) :=
  l.foldl addEntry []

/-- Lookup in the aggregation result map (Python dict access). -/
def lookupAmt (m : List (Nat × ℚ)) (k : Nat) : Option ℚ :=
  (m.find? (fun e => e.1 == k)).map (fun e => e.2)

/-- The full aggregation pipeline shared by the two bulk functions:
match → unwind → match → group-sum, after the empty-input early return. -/
def calcPaymentsBulkBy (key : AllocationLine → Option Nat)
    (payments : List Payment) (ids : List Nat) : List (Nat × ℚ) :=
  if ids.isEmpty then []
  else
    groupSum ((((payments.filter (paymentMatches key ids)).flatMap
        (fun p => p.invoices)).filter (lineMatches key ids)).map
        (fun l => ((key l).getD 0, l.amount)))

/-- app/services/payment_service.py, calculate_invoice_payments_bulk. -/
def calculate_invoice_payments_bulk (payments : List Payment)
    (ids : List Nat) : List (Nat × ℚ) :=
  calcPaymentsBulkBy (fun l => l.invoice_id) payments ids

/-- app/services/payment_service.py, calculate_challan_payments_bulk. -/
def calculate_challan_payments_bulk (payments : List Payment)
    (ids : List Nat) : List (Nat × ℚ) :=
  calcPaymentsBulkBy (fun l => l.challan_id) payments ids

/-- app/services/payment_service.py, calculate_single_invoice_paid:
the bulk map on a singleton set, defaulted to 0.0 when the id is absent. -/
def calculate_single_invoice_paid (payments : List Payment) (iid : Nat) : ℚ :=
  (lookupAmt (calculate_invoice_payments_bulk payments [iid]) iid).getD 0

/-- app/services/payment_service.py, calculate_single_challan_paid. -/
def calculate_single_challan_paid (payments : List Payment) (cid : Nat) : ℚ :=
  (lookupAmt (calculate_challan_payments_bulk payments [cid]) cid).getD 0

/-- Mathematical reference value: the sum of `amount` over every allocation
line, in every payment, whose key equals the given id (spec §4.1/§4.2's
description of total paid). -/
def paidSumBy (key : AllocationLine → Option Nat) (payments : List Payment)
    (i : Nat) : ℚ :=
  (((payments.flatMap (fun p => p.invoices)).filter
      (fun l => key l == some i)).map (fun l => l.amount)).sum

/-! ## routers/payments.py — mutation coordinator -/

/-- Zero-pad to four digits, as Python format {:04d} on the sequence
number. -/
def pad4 (n : Nat) : String :=
  if n < 10 then "000" ++ toString n
  else if n < 100 then "00" ++ toString n
  else if n < 1000 then "0" ++ toString n
  else toString n

/-- Recompute-and-persist step for one invoice (routers/payments.py: fetch
invoice, resum total_paid from the ledger, derive outstanding and status,
update_one).  Used verbatim by both the create and the delete path. -/
def updateInvoiceFromLedger (payments : List Payment) (inv : Invoice) : Invoice :=
  let total_paid := calculate_single_invoice_paid payments inv.id
  { inv with
    total_paid := total_paid
    outstanding := inv.total_amount - total_paid
    payment_status := determine_invoice_payment_status inv.total_amount total_paid }

/-- Recompute-and-persist step for one challan (routers/payments.py: fetch
challan, resum, derive outstanding and status, update_one). -/
def updateChallanFromLedger (payments : List Payment) (c : ChallanDoc) : ChallanDoc :=
  let total_paid := calculate_single_challan_paid payments c.id
  { c with
    total_paid := total_paid
    outstanding := c.total_amount - total_paid
    payment_status := determine_challan_payment_status c.total_amount total_paid }

/-- update_one against sales_invoices by id: the fetched doc (if present)
is replaced by its recomputation against the current payments ledger. -/
def recomputeInvoice (s : Store) (iid : Nat) : Store :=
  { s with sales_invoices :=
      s.sales_invoices.map (fun inv =>
        if inv.id = iid then updateInvoiceFromLedger s.payments inv else inv) }

/-- update_one against purchase_challans by id. -/
def recomputeChallan (s : Store) (cid : Nat) : Store :=
  { s with purchase_challans :=
      s.purchase_challans.map (fun c =>
        if c.id = cid then updateChallanFromLedger s.payments c else c) }

/-- The form fields of POST /payments/sales-receipt/create that reach the
inserted document.  `selected` is the parsed selected_invoices JSON:
(invoice_id, amount) pairs. -/
structure SalesReceiptForm where
  customer_id : Nat
  payment_date : Int
  selected : List (Nat × ℚ)
  cheque_amount : ℚ
  amount_disburse : ℚ
  balance_amount : ℚ
  outstanding : ℚ
  kasar : ℚ
  interest : ℚ
  bank_name : Option String
  cheque_no : Option String
  rr : Option String
  effect_on_passbook : Bool
  deriving DecidableEq, Repr

/-- The allocation-line resolution loop of create_sales_receipt: for each
selected (invoice_id, amount), find_one the invoice and, only if it
exists, append a line; a missing id is silently skipped. -/
def resolveInvoiceLines (s : Store) (selected : List (Nat × ℚ)) : List AllocationLine :=
  selected.filterMap (fun e =>
    if s.sales_invoices.any (fun i => i.id == e.1) then
      some { invoice_id := some e.1, challan_id := none, amount := e.2 }
    else none)

/-- The payment document create_sales_receipt inserts. -/
def mkSalesReceiptPayment (s : Store) (pid : Nat) (f : SalesReceiptForm) : Payment :=
  { id := pid
    payment_no := "REC" ++ pad4 (s.payments.length + 1)
    payment_type := "receipt"
    party_id := some f.customer_id
    supplier_id := none
    invoices := resolveInvoiceLines s f.selected
    cheque_amount := f.cheque_amount
    amount_disburse := f.amount_disburse
    balance_amount := f.balance_amount
    outstanding := f.outstanding
    amount := 0
    disbursement := 0
    notes_rs := 0
    kasar := f.kasar
    interest := f.interest
    bank_name := f.bank_name
    cheque_no := f.cheque_no
    rr := f.rr
    effect_on_passbook := f.effect_on_passbook
    updated_at := none }

/-- routers/payments.py, create_sales_receipt (POST handler).  The customer
must resolve (in the source a missing customer raises a TypeError at
customer["name"] before the insert, aborting the request).  The payment is
inserted with the resolved allocation lines — missing invoice ids are
dropped, not rejected — and then every *selected* invoice id is
recomputed from the post-insert ledger.  The passbook append (step 5) is
outside the modelled store. -/
def create_sales_receipt (s : Store) (pid : Nat) (f : SalesReceiptForm) :
    Except String Store :=
  if s.parties.contains f.customer_id then
    let p := mkSalesReceiptPayment s pid f
    let s1 : Store := { s with payments := s.payments ++ [p] }
    Except.ok (f.selected.foldl (fun st e => recomputeInvoice st e.1) s1)
  else Except.error "customer not found"

/-- The form fields of POST /payments/receipt/create (purchase side). -/
structure PurchasePaymentForm where
  supplier_id : Nat
  payment_date : Int
  selected : List (Nat × ℚ)
  amount : ℚ
  payment_type : String
  cheque_amount : ℚ
  balance_amount : ℚ
  kasar : ℚ
  interest : ℚ
  bank_name : Option String
  cheque_no : Option String
  rr : Option String
  effect_on_passbook : Bool
  deriving DecidableEq, Repr

/-- The allocation-line resolution loop of create_receipt: a missing
challan id is silently skipped. -/
def resolveChallanLines (s : Store) (selected : List (Nat × ℚ)) : List AllocationLine :=
  selected.filterMap (fun e =>
    if s.purchase_challans.any (fun c => c.id == e.1) then
      some { invoice_id := none, challan_id := some e.1, amount := e.2 }
    else none)

/-- The payment document create_receipt inserts. -/
def mkPurchasePayment (s : Store) (pid : Nat) (f : PurchasePaymentForm) : Payment :=
  { id := pid
    payment_no := "PAY" ++ pad4 (s.payments.length + 1)
    payment_type := f.payment_type
    party_id := none
    supplier_id := some f.supplier_id
    invoices := resolveChallanLines s f.selected
    cheque_amount := f.cheque_amount
    amount_disburse := 0
    balance_amount := f.balance_amount
    outstanding := 0
    amount := f.amount
    disbursement := (f.selected.map (fun e => e.2)).sum
    notes_rs := 0
    kasar := f.kasar
    interest := f.interest
    bank_name := f.bank_name
    cheque_no := if f.payment_type = "cheque" then f.cheque_no else none
    rr := f.rr
    effect_on_passbook := f.effect_on_passbook
    updated_at := none }

/-- routers/payments.py, create_receipt (POST handler, purchase side).
Validations in source order: empty selection → 400, missing supplier →
404.  As on the sales side, allocation lines whose challan id does not
resolve are silently dropped and the payment is inserted regardless; every
selected challan id is then recomputed from the post-insert ledger. -/
def create_receipt (s : Store) (pid : Nat) (f : PurchasePaymentForm) :
    Except String Store :=
  if f.selected.isEmpty then Except.error "No invoices selected"
  else if s.parties.contains f.supplier_id then
    let p := mkPurchasePayment s pid f
    let s1 : Store := { s with payments := s.payments ++ [p] }
    Except.ok (f.selected.foldl (fun st e => recomputeChallan st e.1) s1)
  else Except.error "Supplier not found"

/-- The form fields of POST /payments/{id}/edit. -/
structure EditPaymentForm where
  amount : ℚ
  disbursement : ℚ
  notes_rs : ℚ
  bank_name : Option String
  cheque_no : Option String
  rr : Option String
  kasar : ℚ
  interest : ℚ
  deriving DecidableEq, Repr

/-- routers/payments.py, edit_payment: one update_one $set of scalar
metadata (amount, disbursement, notes_rs, bank_name, cheque_no, rr, kasar,
interest, updated_at); 404 when no document matches.  The `invoices`
allocation array is not among the $set keys. -/
def edit_payment (s : Store) (pid : Nat) (f : EditPaymentForm) (now : Int) :
    Except String Store :=
  if s.payments.any (fun p => p.id == pid) then
    Except.ok { s with payments := s.payments.map (fun p =>
      if p.id = pid then
        { p with
          amount := f.amount
          disbursement := f.disbursement
          notes_rs := f.notes_rs
          bank_name := f.bank_name
          cheque_no := f.cheque_no
          rr := f.rr
          kasar := f.kasar
          interest := f.interest
          updated_at := some now }
      else p) }
  else Except.error "Payment not found"

/-- The per-allocation-line branch of delete_payment's recompute loop:
lines carrying invoice_id recompute that invoice, lines carrying
challan_id recompute that challan. -/
def applyLineRecompute (st : Store) (l : AllocationLine) : Store :=
  match l.invoice_id with
  | some iid => recomputeInvoice st iid
  | none =>
    match l.challan_id with
    | some cid => recomputeChallan st cid
    | none => st

/-- routers/payments.py, delete_payment: 404 when the payment id does not
resolve; otherwise delete_one the payment, then for every target
referenced by its allocation lines recompute total_paid / outstanding /
payment_status from the remaining ledger.  The passbook-entry deletion is
outside the modelled store. -/
def delete_payment (s : Store) (pid : Nat) : Except String Store :=
  match s.payments.find? (fun p => p.id == pid) with
  | none => Except.error "Payment not found"
  | some payment =>
    let s1 : Store := { s with payments := s.payments.eraseP (fun p => p.id == pid) }
    Except.ok (payment.invoices.foldl applyLineRecompute s1)

/-! ## routers/purchase_invoices.py and routers/invoices.py — deletes -/

/-- routers/purchase_invoices.py, delete_challan: delete_one by id, 404
when nothing matched.  There is no check of total_paid, payment_status or
referencing payments. -/
def delete_challan (s : Store) (cid : Nat) : Except String Store :=
  if s.purchase_challans.any (fun c => c.id == cid) then
    Except.ok { s with purchase_challans := s.purchase_challans.eraseP (fun c => c.id == cid) }
  else Except.error "Challan not found"

/-- routers/invoices.py, delete_invoice: 404 when the id does not resolve;
400 (store untouched) when the stored payment_status is "paid" or
"partial"; otherwise delete_one. -/
def delete_invoice (s : Store) (iid : Nat) : Except String Store :=
  match s.sales_invoices.find? (fun i => i.id == iid) with
  | none => Except.error "Invoice not found"
  | some inv =>
    if inv.payment_status = "paid" ∨ inv.payment_status = "partial" then
      Except.error "Cannot delete invoice with payments"
    else
      Except.ok { s with sales_invoices := s.sales_invoices.eraseP (fun i => i.id == iid) }

/-! ## services/inventory_service.py — inventory transfer ledger

A purchase challan's inventory-tracking view: total / available /
transferred box and meter counters plus the transfer flags.  Boxes are
Python ints (ℤ here), meters floats (ℚ). -/

/-- Inventory view of a purchase challan document. -/
structure TChallan where
  id : Nat
  total_boxes : Int
  total_meters : ℚ
  available_boxes : Int
  available_meters : ℚ
  transferred_boxes : Int
  transferred_meters : ℚ
  is_transfer_source : Bool
  is_received_via_transfer : Bool
  transfer_source_id : Option Nat
  deriving DecidableEq, Repr

/-- A recipient entry of a transfer, after create_transfer has annotated it
with the id of the challan it minted. -/
structure TRecipient where
  party_id : Nat
  boxes : Int
  meters : ℚ
  created_challan_id : Option Nat
  deriving DecidableEq, Repr

/-- A document of the `inventory_transfers` collection. -/
structure Transfer where
  id : Nat
  source_challan_id : Nat
  boxes_transferred : Int
  meters_transferred : ℚ
  recipients : List TRecipient
  is_reversed : Bool
  status : String
  deriving DecidableEq, Repr

/-- The store slice the inventory service touches. -/
structure TState where
  purchase_challans : List TChallan
  inventory_transfers : List Transfer
  parties : List Nat
  deriving DecidableEq, Repr

/-- The recipient challan document create_transfer inserts for one
recipient (inventory-relevant fields; the line items, zeroed tax fields
and audit log are presentation data outside this model). -/
def mkRecipientChallan (source_id : Nat) (cid : Nat) (r : Nat × Int × ℚ) : TChallan :=
  { id := cid
    total_boxes := r.2.1
    total_meters := r.2.2
    available_boxes := r.2.1
    available_meters := r.2.2
    transferred_boxes := 0
    transferred_meters := 0
    is_transfer_source := false
    is_received_via_transfer := true
    transfer_source_id := some source_id }

/-- The transfer record create_transfer inserts (totals are the sums over
the recipients; each recipient is annotated with its minted challan id). -/
def mkTransferRecord (tid : Nat) (source_id : Nat)
    (recipients : List (Nat × Int × ℚ)) (fresh : List Nat) : Transfer :=
  { id := tid
    source_challan_id := source_id
    boxes_transferred := (recipients.map (fun r => r.2.1)).sum
    meters_transferred := (recipients.map (fun r => r.2.2)).sum
    recipients := (recipients.zip fresh).map (fun rc =>
      { party_id := rc.1.1, boxes := rc.1.2.1, meters := rc.1.2.2,
        created_challan_id := some rc.2 })
    is_reversed := false
    status := "completed" }

/-- The $inc update create_transfer applies to the source challan. -/
def decSourceCounters (source_id : Nat) (totalBoxes : Int) (totalMeters : ℚ)
    (c : TChallan) : TChallan :=
  if c.id = source_id then
    { c with
      available_boxes := c.available_boxes - totalBoxes
      available_meters := c.available_meters - totalMeters
      transferred_boxes := c.transferred_boxes + totalBoxes
      transferred_meters := c.transferred_meters + totalMeters
      is_transfer_source := true }
  else c

/-- The successful-path state change of create_transfer: insert one
challan per recipient, insert the transfer record, and $inc the source
challan's counters (setting is_transfer_source).  Split out of
create_transfer so the success state can be named in proofs. -/
def applyTransfer (st : TState) (tid : Nat) (source_id : Nat)
    (recipients : List (Nat × Int × ℚ)) (fresh : List Nat) : TState :=
  let totalBoxes : Int := (recipients.map (fun r => r.2.1)).sum
  let totalMeters : ℚ := (recipients.map (fun r => r.2.2)).sum
  let newChallans := (recipients.zip fresh).map (fun rc =>
    mkRecipientChallan source_id rc.2 rc.1)
  { st with
    purchase_challans := (st.purchase_challans ++ newChallans).map
      (decSourceCounters source_id totalBoxes totalMeters)
    inventory_transfers := st.inventory_transfers
      ++ [mkTransferRecord tid source_id recipients fresh] }

/-- services/inventory_service.py, create_transfer.  `recipients` are
(party_id, boxes, meters) triples; `fresh` supplies the ObjectIds Mongo
would mint for the recipient challans (zipped positionally).  Validation
order follows the source: missing source challan, insufficient boxes,
insufficient meters, then recipient-party existence.  (In the source the
party check happens inside the insertion loop, so a failing later
recipient leaves earlier inserted challans behind; the model checks all
parties up front — the two agree on every run that succeeds, which is all
the properties below use.) -/
def create_transfer (st : TState) (tid : Nat) (source_id : Nat)
    (recipients : List (Nat × Int × ℚ)) (fresh : List Nat) :
    Except String TState :=
  match st.purchase_challans.find? (fun c => c.id == source_id) with
  | none => Except.error "Source challan not found"
  | some src =>
    if (recipients.map (fun r => r.2.1)).sum > src.available_boxes then
      Except.error "Insufficient boxes"
    else if (recipients.map (fun r => r.2.2)).sum > src.available_meters then
      Except.error "Insufficient meters"
    else if recipients.any (fun r => !(st.parties.contains r.1)) then
      Except.error "Recipient party not found"
    else
      Except.ok (applyTransfer st tid source_id recipients fresh)

/-- The reversing $inc on the source challan (counters restored; note the
source's is_transfer_source flag is not reset by the source code). -/
def incSourceCounters (source_id : Nat) (totalBoxes : Int) (totalMeters : ℚ)
    (c : TChallan) : TChallan :=
  if c.id = source_id then
    { c with
      available_boxes := c.available_boxes + totalBoxes
      available_meters := c.available_meters + totalMeters
      transferred_boxes := c.transferred_boxes - totalBoxes
      transferred_meters := c.transferred_meters - totalMeters }
  else c

/-- One delete_one step of reverse_transfer's recipient loop. -/
def eraseRecipientChallan (cs : List TChallan) (r : TRecipient) : List TChallan :=
  match r.created_challan_id with
  | some cid => cs.eraseP (fun c => c.id == cid)
  | none => cs

/-- The successful-path state change of reverse_transfer for the resolved
transfer record t: $inc the source challan's counters back, delete_one
each recipient's created challan, and mark the transfer reversed. -/
def applyReverse (st : TState) (tid : Nat) (t : Transfer) : TState :=
  { st with
    purchase_challans := t.recipients.foldl eraseRecipientChallan
      (st.purchase_challans.map
        (incSourceCounters t.source_challan_id t.boxes_transferred t.meters_transferred))
    inventory_transfers := st.inventory_transfers.map (fun tr =>
      if tr.id = tid then { tr with is_reversed := true, status := "cancelled" } else tr) }

/-- services/inventory_service.py, reverse_transfer: reject (ValueError,
raised before any write) when the transfer id does not resolve or the
transfer is already reversed; otherwise apply the reversal. -/
def reverse_transfer (st : TState) (tid : Nat) : Except String TState :=
  match st.inventory_transfers.find? (fun t => t.id == tid) with
  | none => Except.error "Transfer not found or already reversed"
  | some t =>
    if t.is_reversed then Except.error "Transfer not found or already reversed"
    else Except.ok (applyReverse st tid t)

/-- The four inventory counters of a challan, used to state counter
restoration. -/
def counters (c : TChallan) : Nat × Int × ℚ × Int × ℚ :=
  (c.id, c.available_boxes, c.available_meters, c.transferred_boxes, c.transferred_meters)

/-! ## Reference values and concrete fixtures

`keySum` and `paidSumBy` are reference expressions used to state what the
aggregation computes; the fixtures below are concrete stores used to
instantiate the theorems at the end of the file. -/

/-- Sum of the amounts grouped under one key in a (key, amount) stream. -/
def keySum (l : List (Nat × ℚ)) (k : Nat) : ℚ :=
  ((l.filter (fun e => e.1 == k)).map (fun e => e.2)).sum

/-- An allocation line of a sales receipt. -/
def invLine (i : Nat) (a : ℚ) : AllocationLine :=
  { invoice_id := some i, challan_id := none, amount := a }

/-- An allocation line of a purchase payment. -/
def chLine (c : Nat) (a : ℚ) : AllocationLine :=
  { invoice_id := none, challan_id := some c, amount := a }

/-- A payment document fixture carrying only an id and allocation lines. -/
def fixturePayment (pid : Nat) (lines : List AllocationLine) : Payment :=
  { id := pid, payment_no := "REC0001", payment_type := "receipt",
    party_id := none, supplier_id := none, invoices := lines,
    cheque_amount := 0, amount_disburse := 0, balance_amount := 0,
    outstanding := 0, amount := 0, disbursement := 0, notes_rs := 0,
    kasar := 0, interest := 0, bank_name := none, cheque_no := none,
    rr := none, effect_on_passbook := false, updated_at := none }

/-- Payments fixture: one receipt splitting 25 + 15 onto invoice 5 with a
challan line for challan 3 in between, and a second receipt of 7 onto
invoice 8. -/
def bulkFixture : List Payment :=
  [fixturePayment 1 [invLine 5 25, chLine 3 10, invLine 5 15],
   fixturePayment 2 [invLine 8 7]]

/-- Store fixture for the create/delete round trip: customer 1, a single
unpaid invoice 5 worth 1000, empty payment ledger. -/
def c1Store : Store :=
  { payments := []
    sales_invoices := [{ id := 5, total_amount := 1000, total_paid := 0,
                         outstanding := 1000, payment_status := "unpaid" }]
    purchase_challans := []
    parties := [1] }

/-- Sales-receipt form fixture allocating 400 to invoice 5. -/
def c1Form : SalesReceiptForm :=
  { customer_id := 1, payment_date := 0, selected := [(5, 400)],
    cheque_amount := 400, amount_disburse := 0, balance_amount := 0,
    outstanding := 0, kasar := 0, interest := 0, bank_name := none,
    cheque_no := none, rr := none, effect_on_passbook := false }

/-- The store after creating the fixture receipt. -/
def c1S1 : Store :=
  match create_sales_receipt c1Store 100 c1Form with
  | Except.ok s => s
  | Except.error _ => c1Store

/-- The store after deleting the fixture receipt again. -/
def c1S2 : Store :=
  match delete_payment c1S1 100 with
  | Except.ok s => s
  | Except.error _ => c1S1

/-- Store fixture for fail-open payment creation: customer/supplier 1
exists but no invoice or challan does. -/
def c2Store : Store :=
  { payments := [], sales_invoices := [], purchase_challans := [], parties := [1] }

/-- Sales-receipt form referencing the nonexistent invoice 5. -/
def c2Form : SalesReceiptForm :=
  { customer_id := 1, payment_date := 0, selected := [(5, 100)],
    cheque_amount := 100, amount_disburse := 0, balance_amount := 0,
    outstanding := 0, kasar := 0, interest := 0, bank_name := none,
    cheque_no := none, rr := none, effect_on_passbook := false }

/-- Purchase-payment form referencing the nonexistent challan 9. -/
def c2PForm : PurchasePaymentForm :=
  { supplier_id := 1, payment_date := 0, selected := [(9, 100)],
    amount := 100, payment_type := "cheque", cheque_amount := 100,
    balance_amount := 0, kasar := 0, interest := 0, bank_name := none,
    cheque_no := none, rr := none, effect_on_passbook := false }

/-- Store fixture for challan deletion: challan 1 is fully paid
(total_paid = 100 ≠ 0). -/
def c3Store : Store :=
  { payments := []
    sales_invoices := [{ id := 4, total_amount := 200, total_paid := 50,
                         outstanding := 150, payment_status := "partial" }]
    purchase_challans := [{ id := 1, total_amount := 100, total_paid := 100,
                            outstanding := 0, payment_status := some "completed" }]
    parties := [] }

/-- Store fixture for the payment-edit frame property. -/
def c10Store : Store :=
  { payments := [fixturePayment 1 [invLine 5 25, chLine 3 10]]
    sales_invoices := [{ id := 5, total_amount := 100, total_paid := 25,
                         outstanding := 75, payment_status := "partial" }]
    purchase_challans := [{ id := 3, total_amount := 40, total_paid := 10,
                            outstanding := 30, payment_status := some "partial" }]
    parties := [1] }

/-- Edit form fixture rewriting every editable scalar. -/
def c10Form : EditPaymentForm :=
  { amount := 99, disbursement := 98, notes_rs := 97,
    bank_name := some "HDFC", cheque_no := some "42", rr := some "R",
    kasar := 3, interest := 2 }

/-- The store after editing payment 1 with the fixture form at time 5. -/
def c10S1 : Store :=
  match edit_payment c10Store 1 c10Form 5 with
  | Except.ok s => s
  | Except.error _ => c10Store

/-- Inventory fixture: challan 1 with 10 boxes / 100 meters available. -/
def c9Challan : TChallan :=
  { id := 1, total_boxes := 10, total_meters := 100,
    available_boxes := 10, available_meters := 100,
    transferred_boxes := 0, transferred_meters := 0,
    is_transfer_source := false, is_received_via_transfer := false,
    transfer_source_id := none }

/-- Inventory fixture state: the challan above, recipient party 7, no
transfers yet. -/
def c9State : TState :=
  { purchase_challans := [c9Challan]
    inventory_transfers := []
    parties := [7] }

/-- The state after transferring 4 boxes / 40 meters to party 7. -/
def c9S1 : TState :=
  match create_transfer c9State 0 1 [(7, 4, 40)] [2] with
  | Except.ok s => s
  | Except.error _ => c9State

/-- The state after reversing that transfer. -/
def c9S2 : TState :=
  match reverse_transfer c9S1 0 with
  | Except.ok s => s
  | Except.error _ => c9S1

/-! ## Helper lemmas: the grouped-sum map -/

theorem lookupAmt_nil (k : Nat) : lookupAmt [] k = none := rfl

theorem lookupAmt_addEntry (acc : List (Nat × ℚ)) (a : Nat) (b : ℚ) (k : Nat) :
    lookupAmt (addEntry acc (a, b)) k =
      if k = a then some ((lookupAmt acc k).getD 0 + b) else lookupAmt acc k := by
  induction acc with
  | nil =>
    by_cases h : k = a
    · subst h; simp [addEntry, lookupAmt]
    · have hne : (a == k) = false := beq_eq_false_iff_ne.mpr (fun h' => h h'.symm)
      simp [addEntry, lookupAmt, List.find?, hne, h]
  | cons hd tl ih =>
    obtain ⟨k', v'⟩ := hd
    by_cases hka : k = a
    · subst hka
      by_cases hk' : k' = k
      · subst hk'; simp [addEntry, lookupAmt]
      · simp only [addEntry, if_neg hk']
        have hne : (k' == k) = false := beq_eq_false_iff_ne.mpr hk'
        simp [lookupAmt, List.find?, hne] at ih ⊢
        simpa using ih
    · by_cases hk' : k' = a
      · subst hk'
        by_cases hkk : k = k'
        · omega
        · have hne : (k' == k) = false := beq_eq_false_iff_ne.mpr (fun h => hkk (Eq.symm h))
          simp [addEntry, lookupAmt, List.find?, hne, hka]
      · simp only [addEntry, if_neg hk']
        by_cases hkk : k' = k
        · subst hkk
          simp [lookupAmt, List.find?, hka]
        · have hne : (k' == k) = false := beq_eq_false_iff_ne.mpr hkk
          simp [lookupAmt, List.find?, hne, hka] at ih ⊢
          simpa [hka] using ih

theorem keySum_nil (k : Nat) : keySum [] k = 0 := rfl

theorem keySum_cons (e : Nat × ℚ) (l : List (Nat × ℚ)) (k : Nat) :
    keySum (e :: l) k = if e.1 = k then e.2 + keySum l k else keySum l k := by
  by_cases h : e.1 = k
  · have hb : (e.1 == k) = true := beq_iff_eq.mpr h
    simp [keySum, List.filter_cons, hb, h]
  · have hb : (e.1 == k) = false := beq_eq_false_iff_ne.mpr h
    simp [keySum, List.filter_cons, hb, h]

theorem lookupAmt_foldl_addEntry (l : List (Nat × ℚ)) (acc : List (Nat × ℚ)) (k : Nat) :
    lookupAmt (l.foldl addEntry acc) k =
      match lookupAmt acc k with
      | some v => some (v + keySum l k)
      | none => if l.any (fun e => e.1 == k) then some (keySum l k) else none := by
  induction l generalizing acc with
  | nil =>
    cases h : lookupAmt acc k with
    | none => simp [List.foldl, h]
    | some v => simp [List.foldl, h, keySum_nil]
  | cons e tl ih =>
    obtain ⟨a, b⟩ := e
    rw [List.foldl_cons, ih (addEntry acc (a, b)), lookupAmt_addEntry]
    by_cases hka : k = a
    · subst hka
      rw [if_pos rfl]
      cases h : lookupAmt acc k with
      | none =>
        simp [h, keySum_cons]
        try ring
      | some v =>
        simp [h, keySum_cons]
        try ring
    · have han : ¬ a = k := fun h' => hka h'.symm
      have hb : (a == k) = false := beq_eq_false_iff_ne.mpr han
      rw [if_neg hka]
      cases h : lookupAmt acc k with
      | none =>
        simp only [h, keySum_cons, if_neg han, List.any_cons, hb, Bool.false_or]
      | some v => simp [h, keySum_cons, han]
theorem lookupAmt_groupSum (l : List (Nat × ℚ)) (k : Nat) :
    lookupAmt (groupSum l) k =
      if l.any (fun e => e.1 == k) then some (keySum l k) else none := by
  have h := lookupAmt_foldl_addEntry l [] k
  simpa [groupSum, lookupAmt_nil] using h

/-! ## Helper lemmas: the aggregation pipeline -/

theorem filter_flatMap_matches (key : AllocationLine → Option Nat) (ids : List Nat) :
    ∀ ps : List Payment,
    ((ps.filter (paymentMatches key ids)).flatMap (fun p => p.invoices)).filter
        (lineMatches key ids)
    = (ps.flatMap (fun p => p.invoices)).filter (lineMatches key ids)
  | [] => rfl
  | p :: ps => by
    have ih := filter_flatMap_matches key ids ps
    cases hm : paymentMatches key ids p with
    | true => simp [List.filter_cons, hm, List.flatMap_cons, List.filter_append, ih]
    | false =>
      have hnil : p.invoices.filter (lineMatches key ids) = [] := by
        rw [List.filter_eq_nil_iff]
        exact List.any_eq_false.mp hm
      simp [List.filter_cons, hm, List.flatMap_cons, List.filter_append, hnil, ih]

theorem keySum_pairs (key : AllocationLine → Option Nat) (ids : List Nat) (i : Nat)
    (hi : i ∈ ids) :
    ∀ lines : List AllocationLine,
    keySum ((lines.filter (lineMatches key ids)).map (fun l => ((key l).getD 0, l.amount))) i
    = ((lines.filter (fun l => key l == some i)).map (fun l => l.amount)).sum
  | [] => rfl
  | l :: lines => by
    have ih := keySum_pairs key ids i hi lines
    cases hk : key l with
    | none =>
      have h1 : lineMatches key ids l = false := by simp [lineMatches, hk]
      simp [List.filter_cons, h1, hk, ih]
    | some j =>
      by_cases hji : j = i
      · subst hji
        have h1 : lineMatches key ids l = true := by
          simp [lineMatches, hk]; exact hi
        simp [List.filter_cons, h1, hk, keySum_cons, ih]
      · cases h1 : lineMatches key ids l with
        | true => simp [List.filter_cons, h1, hk, keySum_cons, hji, ih]
        | false => simp [List.filter_cons, h1, hk, hji, ih]

theorem any_pairs (key : AllocationLine → Option Nat) (ids : List Nat) (i : Nat)
    (hi : i ∈ ids) :
    ∀ lines : List AllocationLine,
    ((lines.filter (lineMatches key ids)).map
        (fun l => ((key l).getD 0, l.amount))).any (fun e => e.1 == i)
    = lines.any (fun l => key l == some i)
  | [] => rfl
  | l :: lines => by
    have ih := any_pairs key ids i hi lines
    cases hk : key l with
    | none =>
      have h1 : lineMatches key ids l = false := by simp [lineMatches, hk]
      simp [List.filter_cons, h1, hk, ih]
    | some j =>
      by_cases hji : j = i
      · subst hji
        have h1 : lineMatches key ids l = true := by
          simp [lineMatches, hk]; exact hi
        simp [List.filter_cons, h1, hk]
      · cases h1 : lineMatches key ids l with
        | true => simp [List.filter_cons, h1, hk, hji, ih]
        | false => simp [List.filter_cons, h1, hk, hji, ih]

theorem mem_pairs_fst (key : AllocationLine → Option Nat) (ids : List Nat)
    (lines : List AllocationLine) (e : Nat × ℚ)
    (he : e ∈ (lines.filter (lineMatches key ids)).map
        (fun l => ((key l).getD 0, l.amount))) :
    e.1 ∈ ids := by
  obtain ⟨l, hl, rfl⟩ := List.mem_map.mp he
  have hmatch : lineMatches key ids l = true := (List.mem_filter.mp hl).2
  cases hk : key l with
  | none => rw [lineMatches, hk] at hmatch; exact absurd hmatch (by simp)
  | some j =>
    rw [lineMatches, hk] at hmatch
    simpa [hk] using List.elem_iff.mp hmatch

theorem lookupAmt_calcBulk_mem (key : AllocationLine → Option Nat)
    (ps : List Payment) (ids : List Nat) (i : Nat) (hi : i ∈ ids) :
    lookupAmt (calcPaymentsBulkBy key ps ids) i =
      if (ps.flatMap (fun p => p.invoices)).any (fun l => key l == some i)
      then some (paidSumBy key ps i)
      else none := by
  have hne : ids.isEmpty = false := by
    cases ids with
    | nil => cases hi
    | cons a l => rfl
  rw [calcPaymentsBulkBy, if_neg (by simp [hne]), lookupAmt_groupSum,
    filter_flatMap_matches, any_pairs key ids i hi, keySum_pairs key ids i hi]
  rfl

theorem lookupAmt_calcBulk_not_mem (key : AllocationLine → Option Nat)
    (ps : List Payment) (ids : List Nat) (i : Nat) (hi : i ∉ ids) :
    lookupAmt (calcPaymentsBulkBy key ps ids) i = none := by
  cases h : ids.isEmpty with
  | true => rw [calcPaymentsBulkBy, if_pos h]; rfl
  | false =>
    rw [calcPaymentsBulkBy, if_neg (by simp [h]), lookupAmt_groupSum]
    have hany : (((((ps.filter (paymentMatches key ids)).flatMap
        (fun p => p.invoices)).filter (lineMatches key ids)).map
        (fun l => ((key l).getD 0, l.amount))).any (fun e => e.1 == i)) = false := by
      rw [List.any_eq_false]
      intro e he
      have := mem_pairs_fst key ids _ e he
      simp only [beq_iff_eq]
      intro heq
      exact hi (heq ▸ this)
    rw [hany]
    simp

theorem paidSumBy_eq_zero_of_no_line (key : AllocationLine → Option Nat)
    (ps : List Payment) (i : Nat)
    (h : (ps.flatMap (fun p => p.invoices)).any (fun l => key l == some i) = false) :
    paidSumBy key ps i = 0 := by
  rw [paidSumBy]
  have : (ps.flatMap (fun p => p.invoices)).filter (fun l => key l == some i) = [] := by
    rw [List.filter_eq_nil_iff]
    exact List.any_eq_false.mp h
  rw [this]
  rfl

theorem calculate_single_invoice_paid_eq (ps : List Payment) (i : Nat) :
    calculate_single_invoice_paid ps i = paidSumBy (fun l => l.invoice_id) ps i := by
  rw [calculate_single_invoice_paid, calculate_invoice_payments_bulk,
    lookupAmt_calcBulk_mem (fun l => l.invoice_id) ps [i] i (List.mem_singleton.mpr rfl)]
  cases h : (ps.flatMap (fun p => p.invoices)).any (fun l => l.invoice_id == some i) with
  | true => simp
  | false => simp [paidSumBy_eq_zero_of_no_line (fun l => l.invoice_id) ps i h]

theorem calculate_single_challan_paid_eq (ps : List Payment) (i : Nat) :
    calculate_single_challan_paid ps i = paidSumBy (fun l => l.challan_id) ps i := by
  rw [calculate_single_challan_paid, calculate_challan_payments_bulk,
    lookupAmt_calcBulk_mem (fun l => l.challan_id) ps [i] i (List.mem_singleton.mpr rfl)]
  cases h : (ps.flatMap (fun p => p.invoices)).any (fun l => l.challan_id == some i) with
  | true => simp
  | false => simp [paidSumBy_eq_zero_of_no_line (fun l => l.challan_id) ps i h]

/-! ## Helper lemmas: recompute-and-persist folds -/

theorem updateInvoice_overwrite (P Q : List Payment) (inv : Invoice) :
    updateInvoiceFromLedger P (updateInvoiceFromLedger Q inv) =
      updateInvoiceFromLedger P inv := rfl

theorem updateChallan_overwrite (P Q : List Payment) (c : ChallanDoc) :
    updateChallanFromLedger P (updateChallanFromLedger Q c) =
      updateChallanFromLedger P c := rfl

theorem foldl_recomputeInvoice_payments :
    ∀ (ts : List Nat) (s : Store), (ts.foldl recomputeInvoice s).payments = s.payments
  | [], _ => rfl
  | t :: ts, s => by
    rw [List.foldl_cons, foldl_recomputeInvoice_payments ts (recomputeInvoice s t)]
    rfl

theorem foldl_recomputeInvoice_challans :
    ∀ (ts : List Nat) (s : Store),
      (ts.foldl recomputeInvoice s).purchase_challans = s.purchase_challans
  | [], _ => rfl
  | t :: ts, s => by
    rw [List.foldl_cons, foldl_recomputeInvoice_challans ts (recomputeInvoice s t)]
    rfl

theorem foldl_recomputeInvoice_parties :
    ∀ (ts : List Nat) (s : Store), (ts.foldl recomputeInvoice s).parties = s.parties
  | [], _ => rfl
  | t :: ts, s => by
    rw [List.foldl_cons, foldl_recomputeInvoice_parties ts (recomputeInvoice s t)]
    rfl

theorem foldl_recomputeChallan_payments :
    ∀ (ts : List Nat) (s : Store), (ts.foldl recomputeChallan s).payments = s.payments
  | [], _ => rfl
  | t :: ts, s => by
    rw [List.foldl_cons, foldl_recomputeChallan_payments ts (recomputeChallan s t)]
    rfl

theorem foldl_recomputeChallan_invoices :
    ∀ (ts : List Nat) (s : Store),
      (ts.foldl recomputeChallan s).sales_invoices = s.sales_invoices
  | [], _ => rfl
  | t :: ts, s => by
    rw [List.foldl_cons, foldl_recomputeChallan_invoices ts (recomputeChallan s t)]
    rfl

theorem foldl_recomputeInvoice_docs :
    ∀ (ts : List Nat) (s : Store),
      (ts.foldl recomputeInvoice s).sales_invoices
      = s.sales_invoices.map (fun inv =>
          if ts.contains inv.id then updateInvoiceFromLedger s.payments inv else inv)
  | [], s => by simp
  | t :: ts, s => by
    have hpay : (recomputeInvoice s t).payments = s.payments := rfl
    have hsi : (recomputeInvoice s t).sales_invoices
        = s.sales_invoices.map (fun inv =>
            if inv.id = t then updateInvoiceFromLedger s.payments inv else inv) := rfl
    rw [List.foldl_cons, foldl_recomputeInvoice_docs ts (recomputeInvoice s t), hsi,
      hpay, List.map_map]
    refine List.map_congr_left ?_
    intro inv _
    by_cases hit : inv.id = t
    · simp [Function.comp, hit, updateInvoice_overwrite]
    · simp [Function.comp, hit]

theorem foldl_recomputeChallan_docs :
    ∀ (ts : List Nat) (s : Store),
      (ts.foldl recomputeChallan s).purchase_challans
      = s.purchase_challans.map (fun c =>
          if ts.contains c.id then updateChallanFromLedger s.payments c else c)
  | [], s => by simp
  | t :: ts, s => by
    have hpay : (recomputeChallan s t).payments = s.payments := rfl
    have hpc : (recomputeChallan s t).purchase_challans
        = s.purchase_challans.map (fun c =>
            if c.id = t then updateChallanFromLedger s.payments c else c) := rfl
    rw [List.foldl_cons, foldl_recomputeChallan_docs ts (recomputeChallan s t), hpc,
      hpay, List.map_map]
    refine List.map_congr_left ?_
    intro c _
    by_cases hit : c.id = t
    · simp [Function.comp, hit, updateChallan_overwrite]
    · simp [Function.comp, hit]

theorem filterMap_if_eq_filter_map {α β : Type} (p : α → Bool) (f : α → β) :
    ∀ l : List α,
    (l.filterMap (fun e => if p e then some (f e) else none)) = (l.filter p).map f
  | [] => rfl
  | a :: l => by
    cases h : p a with
    | true =>
      simp [List.filterMap_cons, List.filter_cons, h, filterMap_if_eq_filter_map p f l]
    | false =>
      simp [List.filterMap_cons, List.filter_cons, h, filterMap_if_eq_filter_map p f l]

theorem resolveInvoiceLines_eq (s : Store) (sel : List (Nat × ℚ)) :
    resolveInvoiceLines s sel
    = (sel.filter (fun e => s.sales_invoices.any (fun i => i.id == e.1))).map
        (fun e => ({ invoice_id := some e.1, challan_id := none, amount := e.2 } : AllocationLine)) :=
  filterMap_if_eq_filter_map _ _ sel

theorem resolveChallanLines_eq (s : Store) (sel : List (Nat × ℚ)) :
    resolveChallanLines s sel
    = (sel.filter (fun e => s.purchase_challans.any (fun c => c.id == e.1))).map
        (fun e => ({ invoice_id := none, challan_id := some e.1, amount := e.2 } : AllocationLine)) :=
  filterMap_if_eq_filter_map _ _ sel

theorem foldl_applyLine_invoice (st : Store) (sel : List (Nat × ℚ)) :
    ((sel.map (fun e => ({ invoice_id := some e.1, challan_id := none, amount := e.2 } : AllocationLine))).foldl applyLineRecompute st)
    = (sel.map Prod.fst).foldl recomputeInvoice st := by
  rw [List.foldl_map, List.foldl_map]
  rfl

theorem foldl_applyLine_challan (st : Store) (sel : List (Nat × ℚ)) :
    ((sel.map (fun e => ({ invoice_id := none, challan_id := some e.1, amount := e.2 } : AllocationLine))).foldl applyLineRecompute st)
    = (sel.map Prod.fst).foldl recomputeChallan st := by
  rw [List.foldl_map, List.foldl_map]
  rfl

theorem foldl_recomputeInvoice_pairs (S : Store) (sel : List (Nat × ℚ)) :
    sel.foldl (fun st e => recomputeInvoice st e.1) S
    = (sel.map Prod.fst).foldl recomputeInvoice S := by
  rw [List.foldl_map]

theorem foldl_recomputeChallan_pairs (S : Store) (sel : List (Nat × ℚ)) :
    sel.foldl (fun st e => recomputeChallan st e.1) S
    = (sel.map Prod.fst).foldl recomputeChallan S := by
  rw [List.foldl_map]

theorem find?_append_of_none {α : Type} (p : α → Bool) (l1 l2 : List α)
    (h : ∀ x ∈ l1, ¬ p x) : (l1 ++ l2).find? p = l2.find? p := by
  rw [List.find?_append, List.find?_eq_none.mpr h]
  rfl

theorem eraseP_append_singleton {α : Type} (q : α → Bool) (s : List α) (a : α)
    (ha : q a) (hfresh : ∀ x ∈ s, ¬ q x) :
    (s ++ [a]).eraseP q = s := by
  rw [List.eraseP_append_right _ hfresh, List.eraseP_cons_of_pos ha]
  simp

theorem create_sales_receipt_ok_eq (s : Store) (pid : Nat) (f : SalesReceiptForm)
    (s1 : Store) (h : create_sales_receipt s pid f = Except.ok s1) :
    s1 = f.selected.foldl (fun st e => recomputeInvoice st e.1)
        { s with payments := s.payments ++ [mkSalesReceiptPayment s pid f] } := by
  rw [create_sales_receipt] at h
  split at h
  · exact (Except.ok.inj h).symm
  · exact absurd h (by simp)

theorem create_receipt_ok_eq (s : Store) (pid : Nat) (f : PurchasePaymentForm)
    (s1 : Store) (h : create_receipt s pid f = Except.ok s1) :
    s1 = f.selected.foldl (fun st e => recomputeChallan st e.1)
        { s with payments := s.payments ++ [mkPurchasePayment s pid f] } := by
  rw [create_receipt] at h
  split at h
  · exact absurd h (by simp)
  · split at h
    · exact (Except.ok.inj h).symm
    · exact absurd h (by simp)

theorem delete_payment_ok_eq (s1 : Store) (pid : Nat) (p : Payment)
    (hfind : s1.payments.find? (fun q => q.id == pid) = some p)
    (s2 : Store) (h : delete_payment s1 pid = Except.ok s2) :
    s2 = p.invoices.foldl applyLineRecompute
        { s1 with payments := s1.payments.eraseP (fun q => q.id == pid) } := by
  rw [delete_payment, hfind] at h
  exact (Except.ok.inj h).symm

theorem calcBulk_invoices_view (key : AllocationLine → Option Nat) (ids : List Nat) :
    ∀ ps : List Payment,
    (ps.filter (paymentMatches key ids)).flatMap (fun p => p.invoices)
    = ((ps.map (fun p => p.invoices)).filter
        (fun ls => ls.any (lineMatches key ids))).flatten
  | [] => rfl
  | p :: ps => by
    have ih := calcBulk_invoices_view key ids ps
    cases hm : paymentMatches key ids p with
    | true =>
      have hm' : p.invoices.any (lineMatches key ids) = true := hm
      simp [List.filter_cons, hm, hm', List.flatMap_cons, List.flatten_cons, ih]
    | false =>
      have hm' : p.invoices.any (lineMatches key ids) = false := hm
      simp [List.filter_cons, hm, hm', List.flatMap_cons, ih]

theorem calcPaymentsBulkBy_congr (key : AllocationLine → Option Nat) (ids : List Nat)
    (ps ps' : List Payment)
    (h : ps.map (fun p => p.invoices) = ps'.map (fun p => p.invoices)) :
    calcPaymentsBulkBy key ps ids = calcPaymentsBulkBy key ps' ids := by
  rw [calcPaymentsBulkBy, calcPaymentsBulkBy, calcBulk_invoices_view,
    calcBulk_invoices_view, h]

theorem edit_payment_frame (s : Store) (pid : Nat) (f : EditPaymentForm) (now : Int)
    (s' : Store) (h : edit_payment s pid f now = Except.ok s') :
    s'.payments.map (fun p => (p.id, p.invoices))
      = s.payments.map (fun p => (p.id, p.invoices))
    ∧ s'.sales_invoices = s.sales_invoices
    ∧ s'.purchase_challans = s.purchase_challans
    ∧ s'.parties = s.parties := by
  rw [edit_payment] at h
  split at h
  · obtain rfl := Except.ok.inj h
    refine ⟨?_, rfl, rfl, rfl⟩
    rw [List.map_map]
    refine List.map_congr_left ?_
    intro p _
    by_cases hp : p.id = pid <;> simp [Function.comp, hp]
  · exact absurd h (by simp)

theorem updateInvoice_id (P : List Payment) (inv : Invoice) :
    (updateInvoiceFromLedger P inv).id = inv.id := rfl

theorem updateChallan_id (P : List Payment) (c : ChallanDoc) :
    (updateChallanFromLedger P c).id = c.id := rfl

theorem create_delete_roundtrip (s : Store) (pid : Nat) (f : SalesReceiptForm)
    (s1 s2 : Store)
    (hfresh : ∀ q ∈ s.payments, q.id ≠ pid)
    (hcr : create_sales_receipt s pid f = Except.ok s1)
    (hdel : delete_payment s1 pid = Except.ok s2) :
    s2.payments = s.payments
    ∧ s2.sales_invoices = s.sales_invoices.map (fun inv =>
        if (f.selected.map Prod.fst).contains inv.id
        then updateInvoiceFromLedger s.payments inv else inv)
    ∧ s2.purchase_challans = s.purchase_challans := by
  have hs1pay : s1.payments = s.payments ++ [mkSalesReceiptPayment s pid f] := by
    rw [create_sales_receipt_ok_eq s pid f s1 hcr, foldl_recomputeInvoice_pairs,
      foldl_recomputeInvoice_payments]
  have hs1docs : s1.sales_invoices = s.sales_invoices.map (fun inv =>
      if (f.selected.map Prod.fst).contains inv.id
      then updateInvoiceFromLedger (s.payments ++ [mkSalesReceiptPayment s pid f]) inv
      else inv) := by
    rw [create_sales_receipt_ok_eq s pid f s1 hcr, foldl_recomputeInvoice_pairs,
      foldl_recomputeInvoice_docs]
  have hs1ch : s1.purchase_challans = s.purchase_challans := by
    rw [create_sales_receipt_ok_eq s pid f s1 hcr, foldl_recomputeInvoice_pairs,
      foldl_recomputeInvoice_challans]
  have hfb : ∀ x ∈ s.payments, ¬ ((fun q => q.id == pid) x = true) := by
    intro x hx
    simpa using hfresh x hx
  have hfind : s1.payments.find? (fun q => q.id == pid)
      = some (mkSalesReceiptPayment s pid f) := by
    rw [hs1pay, find?_append_of_none _ _ _ hfb]
    exact List.find?_cons_of_pos _ (by simp [mkSalesReceiptPayment])
  have hs2eq := delete_payment_ok_eq s1 pid _ hfind s2 hdel
  have herase : s1.payments.eraseP (fun q => q.id == pid) = s.payments := by
    rw [hs1pay]
    exact eraseP_append_singleton _ _ _ (by simp [mkSalesReceiptPayment]) hfb
  rw [herase] at hs2eq
  have hPinv : (mkSalesReceiptPayment s pid f).invoices
      = (f.selected.filter (fun e => s.sales_invoices.any (fun i => i.id == e.1))).map
        (fun e => ({ invoice_id := some e.1, challan_id := none, amount := e.2 } : AllocationLine)) :=
    resolveInvoiceLines_eq s f.selected
  rw [hPinv, foldl_applyLine_invoice] at hs2eq
  refine ⟨?_, ?_, ?_⟩
  · rw [hs2eq, foldl_recomputeInvoice_payments]
  · rw [hs2eq, foldl_recomputeInvoice_docs]
    show s1.sales_invoices.map (fun inv =>
        if (((f.selected.filter (fun e => s.sales_invoices.any
            (fun i => i.id == e.1))).map Prod.fst).contains inv.id)
        then updateInvoiceFromLedger s.payments inv else inv)
      = s.sales_invoices.map (fun inv =>
        if (f.selected.map Prod.fst).contains inv.id
        then updateInvoiceFromLedger s.payments inv else inv)
    rw [hs1docs, List.map_map]
    refine List.map_congr_left ?_
    intro inv hinv
    simp only [Function.comp_apply]
    by_cases hsel : ((f.selected.map Prod.fst).contains inv.id) = true
    · have hmem : inv.id ∈ f.selected.map Prod.fst := List.elem_iff.mp hsel
      obtain ⟨e, he, heq⟩ := List.mem_map.mp hmem
      have hchk : (s.sales_invoices.any (fun i => i.id == e.1)) = true := by
        rw [List.any_eq_true]
        exact ⟨inv, hinv, by simp [heq]⟩
      have hres : inv.id ∈ (f.selected.filter
          (fun e => s.sales_invoices.any (fun i => i.id == e.1))).map Prod.fst :=
        List.mem_map.mpr ⟨e, List.mem_filter.mpr ⟨he, hchk⟩, heq⟩
      have hresb : (((f.selected.filter
          (fun e => s.sales_invoices.any (fun i => i.id == e.1))).map Prod.fst).contains
          inv.id) = true := List.elem_iff.mpr hres
      rw [if_pos hsel, updateInvoice_id, if_pos hresb, updateInvoice_overwrite,
        if_pos hsel]
    · have hselF : ((f.selected.map Prod.fst).contains inv.id) = false :=
        Bool.eq_false_iff.mpr hsel
      have hresF : (((f.selected.filter
          (fun e => s.sales_invoices.any (fun i => i.id == e.1))).map Prod.fst).contains
          inv.id) = false := by
        rw [Bool.eq_false_iff]
        intro hc
        apply hsel
        obtain ⟨e, hef, heq⟩ := List.mem_map.mp (List.elem_iff.mp hc)
        exact List.elem_iff.mpr (List.mem_map.mpr ⟨e, (List.mem_filter.mp hef).1, heq⟩)
      have hinner : (if ((f.selected.map Prod.fst).contains inv.id) = true
          then updateInvoiceFromLedger
            (s.payments ++ [mkSalesReceiptPayment s pid f]) inv
          else inv) = inv := if_neg hsel
      rw [hinner, if_neg (by rw [hresF]; simp), if_neg hsel]
  · rw [hs2eq, foldl_recomputeInvoice_challans]
    show s1.purchase_challans = s.purchase_challans
    exact hs1ch

/-! ## Claim theorems -/

/-- C4 counterexample: the claim says determine_challan_payment_status
returns "completed" when total_paid ≥ total_amount - 0.01 (the invoice-side
ε tolerance).  At total_amount = 100, total_paid = 99.99 the tolerance
threshold is met, yet the function returns "partial", not "completed":
the challan side has no ε in the source (total_paid >= total_amount,
payment_service.py line 76). -/
theorem C4_challan_tolerance_counterexample :
    ((99.99 : ℚ) ≥ 100 - 0.01)
    ∧ determine_challan_payment_status 100 99.99 = some "partial"
    ∧ determine_challan_payment_status 100 99.99 ≠ some "completed" := by
  have h : determine_challan_payment_status 100 99.99 = some "partial" := by
    norm_num [determine_challan_payment_status]
  refine ⟨by norm_num, h, ?_⟩
  rw [h]
  decide

/-- C4 amended: determine_challan_payment_status uses the exact threshold
total_paid ≥ total_amount (no 0.01 tolerance): "completed" iff
total_paid ≥ total_amount, "partial" iff 0 < total_paid < total_amount,
and None (absent) otherwise; only the names differ from the invoice side
("completed" for "paid", None for "unpaid") — and, contrary to the claim,
also the threshold differs. -/
theorem C4_challan_status_amended (total_amount total_paid : ℚ) :
    (determine_challan_payment_status total_amount total_paid = some "completed"
      ↔ total_amount ≤ total_paid)
    ∧ (determine_challan_payment_status total_amount total_paid = some "partial"
      ↔ 0 < total_paid ∧ total_paid < total_amount)
    ∧ (determine_challan_payment_status total_amount total_paid = none
      ↔ total_paid ≤ 0 ∧ total_paid < total_amount) := by
  unfold determine_challan_payment_status
  split_ifs with h1 h2
  · exact ⟨⟨fun _ => h1, fun _ => rfl⟩,
      ⟨fun h => by simp at h, fun h => absurd h1 (not_le.mpr h.2)⟩,
      ⟨fun h => by simp at h, fun h => absurd h1 (not_le.mpr h.2)⟩⟩
  · exact ⟨⟨fun h => by simp at h, fun h => absurd h h1⟩,
      ⟨fun _ => ⟨h2, not_le.mp h1⟩, fun _ => rfl⟩,
      ⟨fun h => by simp at h, fun h => absurd h2 (not_lt.mpr h.1)⟩⟩
  · exact ⟨⟨fun h => by simp at h, fun h => absurd h h1⟩,
      ⟨fun h => by simp at h, fun h => absurd h.1 h2⟩,
      ⟨fun _ => ⟨not_lt.mp h2, not_le.mp h1⟩, fun _ => rfl⟩⟩

/-- C4 witness: the amended characterisation instantiated at (100, 99.99)
and (100, 100). -/
theorem C4_challan_status_amended_witness :
    determine_challan_payment_status 100 99.99 = some "partial"
    ∧ determine_challan_payment_status 100 100 = some "completed" :=
  ⟨((C4_challan_status_amended 100 99.99).2.1).mpr (by norm_num),
   ((C4_challan_status_amended 100 100).1).mpr (by norm_num)⟩

/-- C8: determine_invoice_payment_status returns "paid" iff
total_paid ≥ total_amount - 0.01, else "partial" iff total_paid > 0, else
"unpaid"; in particular (100, 100) and (100, 99.99) are "paid", (100, 50)
is "partial" and (100, 0) is "unpaid".  The function is pure by
construction (a Lean function of its two arguments). -/
theorem C8_invoice_status_thresholds :
    (∀ total_amount total_paid : ℚ,
      (determine_invoice_payment_status total_amount total_paid = "paid"
        ↔ total_amount - 0.01 ≤ total_paid)
      ∧ (determine_invoice_payment_status total_amount total_paid = "partial"
        ↔ 0 < total_paid ∧ total_paid < total_amount - 0.01)
      ∧ (determine_invoice_payment_status total_amount total_paid = "unpaid"
        ↔ total_paid ≤ 0 ∧ total_paid < total_amount - 0.01))
    ∧ determine_invoice_payment_status 100 100 = "paid"
    ∧ determine_invoice_payment_status 100 99.99 = "paid"
    ∧ determine_invoice_payment_status 100 50 = "partial"
    ∧ determine_invoice_payment_status 100 0 = "unpaid" := by
  refine ⟨?_, by norm_num [determine_invoice_payment_status],
    by norm_num [determine_invoice_payment_status],
    by norm_num [determine_invoice_payment_status],
    by norm_num [determine_invoice_payment_status]⟩
  intro total_amount total_paid
  unfold determine_invoice_payment_status
  split_ifs with h1 h2
  · exact ⟨⟨fun _ => h1, fun _ => rfl⟩,
      ⟨fun h => by simp at h, fun h => absurd h1 (not_le.mpr h.2)⟩,
      ⟨fun h => by simp at h, fun h => absurd h1 (not_le.mpr h.2)⟩⟩
  · exact ⟨⟨fun h => by simp at h, fun h => absurd h h1⟩,
      ⟨fun _ => ⟨h2, not_le.mp h1⟩, fun _ => rfl⟩,
      ⟨fun h => by simp at h, fun h => absurd h2 (not_lt.mpr h.1)⟩⟩
  · exact ⟨⟨fun h => by simp at h, fun h => absurd h h1⟩,
      ⟨fun h => by simp at h, fun h => absurd h.1 h2⟩,
      ⟨fun _ => ⟨not_lt.mp h2, not_le.mp h1⟩, fun _ => rfl⟩⟩

/-- C8 witness: the threshold characterisation applied at a fresh input
(200, 1). -/
theorem C8_invoice_status_thresholds_witness :
    determine_invoice_payment_status 200 1 = "partial" :=
  ((C8_invoice_status_thresholds.1 200 1).2.1).mpr (by norm_num)

/-- C7: calculate_interest is 0 whenever due_date is absent, the rate is
… 0, as_of is not after due_date, or the balance is … 0; otherwise it is
balance * rate * overdue_days / (365 * 100) with overdue_days the number
of whole days (floor of elapsed seconds / 86400) between due_date and
as_of.  The three P5 boundary instances are included: on the due date the
interest is 0; 365 days late at rate 12 on balance 1000 it is exactly 120;
a fully paid invoice accrues 0 regardless of days overdue. -/
theorem C7_interest_accrual :
    (∀ (total_amount total_paid : ℚ) (due_date : Option Int)
        (interest_rate : ℚ) (as_of : Int),
      (due_date = none →
        calculate_interest total_amount total_paid due_date interest_rate as_of = 0)
      ∧ (interest_rate ≤ 0 →
        calculate_interest total_amount total_paid due_date interest_rate as_of = 0)
      ∧ (∀ d, due_date = some d → as_of ≤ d →
        calculate_interest total_amount total_paid due_date interest_rate as_of = 0)
      ∧ (total_amount - total_paid ≤ 0 →
        calculate_interest total_amount total_paid due_date interest_rate as_of = 0)
      ∧ (∀ d, due_date = some d → 0 < interest_rate → d < as_of →
          0 < total_amount - total_paid →
        calculate_interest total_amount total_paid due_date interest_rate as_of
          = (total_amount - total_paid) * interest_rate
              * (((as_of - d).fdiv 86400 : Int) : ℚ) / (365 * 100)))
    ∧ calculate_interest 1000 0 (some 0) 12 0 = 0
    ∧ calculate_interest 1000 0 (some 0) 12 (365 * 86400) = 120
    ∧ calculate_interest 1000 1000 (some (-10 * 86400)) 12 0 = 0 := by
  refine ⟨?_, ?_, ?_, ?_⟩
  · intro ta tp dd r ao
    refine ⟨?_, ?_, ?_, ?_, ?_⟩
    · intro h; rw [h, calculate_interest]
    · intro h
      cases dd with
      | none => rw [calculate_interest]
      | some d => simp only [calculate_interest]; rw [if_pos h]
    · intro d hd h
      subst hd
      simp only [calculate_interest]
      split_ifs <;> rfl
    · intro h
      cases dd with
      | none => rw [calculate_interest]
      | some d =>
        simp only [calculate_interest]
        split_ifs <;> rfl
    · intro d hd hr hlt hb
      subst hd
      simp only [calculate_interest]
      rw [if_neg (not_le.mpr hr), if_neg (not_le.mpr hlt), if_neg (not_le.mpr hb)]
  · norm_num [calculate_interest]
  · norm_num [calculate_interest]
    rw [show Int.fdiv 31536000 86400 = 365 by decide]
    norm_num
  · norm_num [calculate_interest]

/-- C7 witness: the closed-form branch applied at balance 1000, rate 12,
one whole year overdue, giving exactly 120. -/
theorem C7_interest_accrual_witness :
    calculate_interest 1000 0 (some 0) 12 (365 * 86400)
      = (1000 - 0) * 12 * ((((365 * 86400 : Int) - 0).fdiv 86400 : Int) : ℚ)
          / (365 * 100) :=
  (C7_interest_accrual.1 1000 0 (some 0) 12 (365 * 86400)).2.2.2.2 0 rfl
    (by norm_num) (by norm_num) (by norm_num)

/-- C5: for every input id set, bulk reconciliation maps each id of the set
that has at least one matching allocation line to the sum of `amount` over
all matching lines across all payments, and omits ids with no matching
payment from the result (lookup gives none, not an error); ids outside the
input set are never present.  The pipeline is the modelled one-pass
aggregation: match, unwind, re-match, group-sum (see calcPaymentsBulkBy).
Both the invoice and the challan variant are covered. -/
theorem C5_bulk_reconciliation (ps : List Payment) (ids : List Nat) (i : Nat) :
    (i ∈ ids →
      lookupAmt (calculate_invoice_payments_bulk ps ids) i =
        if (ps.flatMap (fun p => p.invoices)).any (fun l => l.invoice_id == some i)
        then some (paidSumBy (fun l => l.invoice_id) ps i) else none)
    ∧ (i ∉ ids → lookupAmt (calculate_invoice_payments_bulk ps ids) i = none)
    ∧ (i ∈ ids →
      lookupAmt (calculate_challan_payments_bulk ps ids) i =
        if (ps.flatMap (fun p => p.invoices)).any (fun l => l.challan_id == some i)
        then some (paidSumBy (fun l => l.challan_id) ps i) else none)
    ∧ (i ∉ ids → lookupAmt (calculate_challan_payments_bulk ps ids) i = none) :=
  ⟨fun hi => lookupAmt_calcBulk_mem _ ps ids i hi,
   fun hi => lookupAmt_calcBulk_not_mem _ ps ids i hi,
   fun hi => lookupAmt_calcBulk_mem _ ps ids i hi,
   fun hi => lookupAmt_calcBulk_not_mem _ ps ids i hi⟩

/-- C5 witness: on the concrete fixture, invoice 5 (allocated 25 + 15 by
one payment) is mapped to its line sum, id 9 (in the input set, no
payments) is absent, and id 8 (not in the input set) is absent. -/
theorem C5_bulk_reconciliation_witness :
    lookupAmt (calculate_invoice_payments_bulk bulkFixture [5, 9]) 5
      = some (paidSumBy (fun l => l.invoice_id) bulkFixture 5)
    ∧ lookupAmt (calculate_invoice_payments_bulk bulkFixture [5, 9]) 9 = none
    ∧ lookupAmt (calculate_invoice_payments_bulk bulkFixture [5, 9]) 8 = none
    ∧ lookupAmt (calculate_challan_payments_bulk bulkFixture [3]) 3
      = some (paidSumBy (fun l => l.challan_id) bulkFixture 3) := by
  refine ⟨?_, ?_, ?_, ?_⟩
  · exact ((C5_bulk_reconciliation bulkFixture [5, 9] 5).1 (by decide)).trans
      (if_pos rfl)
  · exact ((C5_bulk_reconciliation bulkFixture [5, 9] 9).1 (by decide)).trans
      (if_neg (by decide))
  · exact (C5_bulk_reconciliation bulkFixture [5, 9] 8).2.1 (by decide)
  · exact ((C5_bulk_reconciliation bulkFixture [3] 3).2.2.1 (by decide)).trans
      (if_pos rfl)

/-- C6: single-target reconciliation is literally the bulk map of the
singleton set defaulted to 0.0 (first/fourth conjuncts are the code's own
definition), it equals the mathematical line sum for the target, and a
target with zero matching payments yields 0.0 rather than an error. -/
theorem C6_bulk_single_equivalence (ps : List Payment) (i : Nat) :
    calculate_single_invoice_paid ps i
      = (lookupAmt (calculate_invoice_payments_bulk ps [i]) i).getD 0
    ∧ calculate_single_invoice_paid ps i = paidSumBy (fun l => l.invoice_id) ps i
    ∧ ((∀ p ∈ ps, ∀ l ∈ p.invoices, l.invoice_id ≠ some i) →
        calculate_single_invoice_paid ps i = 0)
    ∧ calculate_single_challan_paid ps i
      = (lookupAmt (calculate_challan_payments_bulk ps [i]) i).getD 0
    ∧ calculate_single_challan_paid ps i = paidSumBy (fun l => l.challan_id) ps i
    ∧ ((∀ p ∈ ps, ∀ l ∈ p.invoices, l.challan_id ≠ some i) →
        calculate_single_challan_paid ps i = 0) := by
  refine ⟨rfl, calculate_single_invoice_paid_eq ps i, ?_, rfl,
    calculate_single_challan_paid_eq ps i, ?_⟩
  · intro h
    rw [calculate_single_invoice_paid_eq ps i, paidSumBy]
    have hnil : (ps.flatMap (fun p => p.invoices)).filter
        (fun l => l.invoice_id == some i) = [] := by
      rw [List.filter_eq_nil_iff]
      intro l hl
      obtain ⟨p, hp, hlp⟩ := List.mem_flatMap.mp hl
      simpa using h p hp l hlp
    rw [hnil]
    rfl
  · intro h
    rw [calculate_single_challan_paid_eq ps i, paidSumBy]
    have hnil : (ps.flatMap (fun p => p.invoices)).filter
        (fun l => l.challan_id == some i) = [] := by
      rw [List.filter_eq_nil_iff]
      intro l hl
      obtain ⟨p, hp, hlp⟩ := List.mem_flatMap.mp hl
      simpa using h p hp l hlp
    rw [hnil]
    rfl

/-- C6 witness: on the fixture, the single-invoice path equals the line
sum for invoice 5, and a target with zero payments (id 99) yields 0.0 on
both the invoice and the challan path. -/
theorem C6_bulk_single_equivalence_witness :
    calculate_single_invoice_paid bulkFixture 5
      = paidSumBy (fun l => l.invoice_id) bulkFixture 5
    ∧ calculate_single_invoice_paid bulkFixture 99 = 0
    ∧ calculate_single_challan_paid bulkFixture 99 = 0 :=
  ⟨(C6_bulk_single_equivalence bulkFixture 5).2.1,
   (C6_bulk_single_equivalence bulkFixture 99).2.2.1 (by decide),
   (C6_bulk_single_equivalence bulkFixture 99).2.2.2.2.2 (by decide)⟩

/-- C2 counterexample: the claim says a missing allocation target aborts
payment creation before the Payment is inserted.  On a store with no
invoices and no challans, a sales receipt referencing the nonexistent
invoice 5 and a purchase payment referencing the nonexistent challan 9
both succeed and both insert a payment — with the unresolvable allocation
line silently dropped (empty `invoices` array). -/
theorem C2_fail_closed_counterexample :
    (create_sales_receipt c2Store 1 c2Form).toOption.map
        (fun s => (s.payments.length, s.payments.all (fun p => p.invoices.isEmpty)))
      = some (1, true)
    ∧ (create_receipt c2Store 1 c2PForm).toOption.map
        (fun s => (s.payments.length, s.payments.all (fun p => p.invoices.isEmpty)))
      = some (1, true) :=
  ⟨rfl, rfl⟩

/-- C2 amended: payment creation resolves each allocation's referenced
invoice/challan and silently drops the allocation lines whose referenced
id does not exist; the Payment document is inserted regardless, carrying
only the resolved lines, so a missing target does not abort the operation
(the only aborts are a missing customer/supplier or, on the purchase side,
an empty selection). -/
theorem C2_creation_drops_missing_targets :
    (∀ (s : Store) (pid : Nat) (f : SalesReceiptForm) (s1 : Store),
      create_sales_receipt s pid f = Except.ok s1 →
      s1.payments = s.payments ++ [mkSalesReceiptPayment s pid f]
      ∧ ∀ e ∈ f.selected, (∀ inv ∈ s.sales_invoices, inv.id ≠ e.1) →
          ∀ l ∈ (mkSalesReceiptPayment s pid f).invoices, l.invoice_id ≠ some e.1)
    ∧ (∀ (s : Store) (pid : Nat) (f : PurchasePaymentForm) (s1 : Store),
      create_receipt s pid f = Except.ok s1 →
      s1.payments = s.payments ++ [mkPurchasePayment s pid f]
      ∧ ∀ e ∈ f.selected, (∀ c ∈ s.purchase_challans, c.id ≠ e.1) →
          ∀ l ∈ (mkPurchasePayment s pid f).invoices, l.challan_id ≠ some e.1) := by
  constructor
  · intro s pid f s1 h
    constructor
    · rw [create_sales_receipt_ok_eq s pid f s1 h, foldl_recomputeInvoice_pairs,
        foldl_recomputeInvoice_payments]
    · intro e he hmiss l hl heq
      have hl' : l ∈ resolveInvoiceLines s f.selected := hl
      rw [resolveInvoiceLines_eq] at hl'
      obtain ⟨e', he', rfl⟩ := List.mem_map.mp hl'
      have hee : e'.1 = e.1 := Option.some.inj heq
      obtain ⟨inv, hinv, hbeq⟩ := List.any_eq_true.mp (List.mem_filter.mp he').2
      exact hmiss inv hinv (by simpa [hee] using hbeq)
  · intro s pid f s1 h
    constructor
    · rw [create_receipt_ok_eq s pid f s1 h, foldl_recomputeChallan_pairs,
        foldl_recomputeChallan_payments]
    · intro e he hmiss l hl heq
      have hl' : l ∈ resolveChallanLines s f.selected := hl
      rw [resolveChallanLines_eq] at hl'
      obtain ⟨e', he', rfl⟩ := List.mem_map.mp hl'
      have hee : e'.1 = e.1 := Option.some.inj heq
      obtain ⟨c, hc, hbeq⟩ := List.any_eq_true.mp (List.mem_filter.mp he').2
      exact hmiss c hc (by simpa [hee] using hbeq)

/-- C2 witness: the amended statement applied to the concrete fixture
store — the payment is appended and its allocation array carries no line
for the missing invoice 5 / challan 9. -/
theorem C2_creation_drops_missing_targets_witness :
    (match create_sales_receipt c2Store 1 c2Form with
      | Except.ok s1 => s1.payments = c2Store.payments ++ [mkSalesReceiptPayment c2Store 1 c2Form]
      | Except.error _ => False)
    ∧ (match create_receipt c2Store 1 c2PForm with
      | Except.ok s1 => s1.payments = c2Store.payments ++ [mkPurchasePayment c2Store 1 c2PForm]
      | Except.error _ => False) := by
  constructor
  · exact ((C2_creation_drops_missing_targets.1 c2Store 1 c2Form _ rfl).1 : _)
  · exact ((C2_creation_drops_missing_targets.2 c2Store 1 c2PForm _ rfl).1 : _)

/-- C3 counterexample: challan 1 in the fixture store has total_paid = 100
(nonzero), yet delete_challan removes it from the store — the handler has
no payment check at all, so the claim fails on the challan side. -/
theorem C3_conflicting_delete_counterexample :
    c3Store.purchase_challans.map (fun c => c.total_paid) = [100]
    ∧ (100 : ℚ) ≠ 0
    ∧ (delete_challan c3Store 1).toOption.map (fun s => s.purchase_challans.length)
      = some 0 :=
  ⟨rfl, by norm_num, rfl⟩

/-- C3 amended: delete_challan hard-deletes any existing challan
unconditionally, regardless of total_paid or referencing payments;
delete_invoice rejects the delete exactly when the invoice's *stored*
payment_status is "paid" or "partial" (returning a 400 error before
delete_one, leaving the store unchanged) and deletes it otherwise — the
guard is on the denormalized status string, not on nonzero total_paid. -/
theorem C3_delete_guards_amended :
    (∀ (s : Store) (cid : Nat), s.purchase_challans.any (fun c => c.id == cid) = true →
      delete_challan s cid = Except.ok
        { s with purchase_challans := s.purchase_challans.eraseP (fun c => c.id == cid) })
    ∧ (∀ (s : Store) (iid : Nat) (inv : Invoice),
        s.sales_invoices.find? (fun i => i.id == iid) = some inv →
        ((inv.payment_status = "paid" ∨ inv.payment_status = "partial") →
          delete_invoice s iid = Except.error "Cannot delete invoice with payments")
        ∧ (¬ (inv.payment_status = "paid" ∨ inv.payment_status = "partial") →
          delete_invoice s iid = Except.ok
            { s with sales_invoices := s.sales_invoices.eraseP (fun i => i.id == iid) })) := by
  constructor
  · intro s cid h
    rw [delete_challan, if_pos h]
  · intro s iid inv hfind
    have heq : delete_invoice s iid
        = (if inv.payment_status = "paid" ∨ inv.payment_status = "partial"
            then Except.error "Cannot delete invoice with payments"
            else Except.ok
              { s with sales_invoices := s.sales_invoices.eraseP (fun i => i.id == iid) }) := by
      unfold delete_invoice
      rw [hfind]
    exact ⟨fun hst => by rw [heq, if_pos hst], fun hst => by rw [heq, if_neg hst]⟩

/-- C3 witness: the amended statement on the fixture — the fully paid
challan 1 is deleted without complaint, while invoice 4 (stored status
"partial") is rejected. -/
theorem C3_delete_guards_amended_witness :
    delete_challan c3Store 1 = Except.ok
      { c3Store with purchase_challans := c3Store.purchase_challans.eraseP (fun c => c.id == 1) }
    ∧ delete_invoice c3Store 4 = Except.error "Cannot delete invoice with payments" := by
  constructor
  · exact C3_delete_guards_amended.1 c3Store 1 rfl
  · exact (C3_delete_guards_amended.2 c3Store 4
      { id := 4, total_amount := 200, total_paid := 50,
        outstanding := 150, payment_status := "partial" } rfl).1 (Or.inr rfl)

/-- C10: a successful payment edit rewrites only the scalar metadata
fields; every payment keeps its id and its `invoices` allocation array,
the invoice and challan collections are untouched, and consequently every
bulk or single reconciliation read over the edited ledger returns exactly
what it returned before the edit — total_paid, outstanding and
payment_status derived for any target are unaffected. -/
theorem C10_edit_payment_frame (s : Store) (pid : Nat) (f : EditPaymentForm)
    (now : Int) (s' : Store) (h : edit_payment s pid f now = Except.ok s') :
    s'.payments.map (fun p => (p.id, p.invoices))
      = s.payments.map (fun p => (p.id, p.invoices))
    ∧ s'.sales_invoices = s.sales_invoices
    ∧ s'.purchase_challans = s.purchase_challans
    ∧ (∀ ids, calculate_invoice_payments_bulk s'.payments ids
        = calculate_invoice_payments_bulk s.payments ids)
    ∧ (∀ ids, calculate_challan_payments_bulk s'.payments ids
        = calculate_challan_payments_bulk s.payments ids)
    ∧ (∀ i, calculate_single_invoice_paid s'.payments i
        = calculate_single_invoice_paid s.payments i)
    ∧ (∀ i, calculate_single_challan_paid s'.payments i
        = calculate_single_challan_paid s.payments i) := by
  obtain ⟨hpi, hsi, hpc, _⟩ := edit_payment_frame s pid f now s' h
  have hinv : s'.payments.map (fun p => p.invoices)
      = s.payments.map (fun p => p.invoices) := by
    have h2 := congrArg (List.map Prod.snd) hpi
    simpa [List.map_map, Function.comp] using h2
  refine ⟨hpi, hsi, hpc, ?_, ?_, ?_, ?_⟩
  · intro ids; exact calcPaymentsBulkBy_congr _ ids _ _ hinv
  · intro ids; exact calcPaymentsBulkBy_congr _ ids _ _ hinv
  · intro i
    rw [calculate_single_invoice_paid, calculate_single_invoice_paid,
      calculate_invoice_payments_bulk, calculate_invoice_payments_bulk,
      calcPaymentsBulkBy_congr _ [i] _ _ hinv]
  · intro i
    rw [calculate_single_challan_paid, calculate_single_challan_paid,
      calculate_challan_payments_bulk, calculate_challan_payments_bulk,
      calcPaymentsBulkBy_congr _ [i] _ _ hinv]

/-- C10 witness: editing fixture payment 1 (rewriting every editable
scalar) leaves ids, allocation arrays and the reconciled totals for
invoice 5 and challan 3 unchanged. -/
theorem C10_edit_payment_frame_witness :
    edit_payment c10Store 1 c10Form 5 = Except.ok c10S1
    ∧ c10S1.payments.map (fun p => (p.id, p.invoices))
      = c10Store.payments.map (fun p => (p.id, p.invoices))
    ∧ calculate_single_invoice_paid c10S1.payments 5
      = calculate_single_invoice_paid c10Store.payments 5
    ∧ calculate_single_challan_paid c10S1.payments 3
      = calculate_single_challan_paid c10Store.payments 3 := by
  have h : edit_payment c10Store 1 c10Form 5 = Except.ok c10S1 := rfl
  have hc := C10_edit_payment_frame c10Store 1 c10Form 5 c10S1 h
  exact ⟨h, hc.1, hc.2.2.2.2.2.1 5, hc.2.2.2.2.2.2 3⟩

/-- C1: create/delete inverse.  For a payment id fresh for the ledger,
creating a sales receipt that allocates amount A to an existing invoice X
whose stored total_paid agrees with the ledger (the §9 cache invariant),
and then deleting that payment, (i) restores the payment ledger exactly,
(ii) leaves every invoice the deletion touched equal to its recomputation
from the original ledger — total_paid, outstanding and payment_status are
exactly what §4.5 step 4 would have produced had the deleted payment never
existed (updateInvoiceFromLedger over the pre-create payments) — and
(iii) in particular X's total_paid is exactly its value before the
creation. -/
theorem C1_create_delete_inverse (s : Store) (pid x : Nat) (A : ℚ)
    (f : SalesReceiptForm) (inv0 : Invoice) (s1 s2 : Store)
    (hfresh : ∀ q ∈ s.payments, q.id ≠ pid)
    (hX : inv0 ∈ s.sales_invoices) (hXid : inv0.id = x)
    (hsel : (x, A) ∈ f.selected)
    (hcons : inv0.total_paid = calculate_single_invoice_paid s.payments x)
    (hcr : create_sales_receipt s pid f = Except.ok s1)
    (hdel : delete_payment s1 pid = Except.ok s2) :
    s2.payments = s.payments
    ∧ s2.sales_invoices = s.sales_invoices.map (fun inv =>
        if (f.selected.map Prod.fst).contains inv.id
        then updateInvoiceFromLedger s.payments inv else inv)
    ∧ (∀ inv ∈ s2.sales_invoices, inv.id = x → inv.total_paid = inv0.total_paid) := by
  obtain ⟨hp, hsi, hpc⟩ := create_delete_roundtrip s pid f s1 s2 hfresh hcr hdel
  refine ⟨hp, hsi, ?_⟩
  intro inv hmem hid
  rw [hsi] at hmem
  obtain ⟨inv', hinv', rfl⟩ := List.mem_map.mp hmem
  have hid' : inv'.id = x := by
    by_cases hc : ((f.selected.map Prod.fst).contains inv'.id) = true
    · rw [if_pos hc, updateInvoice_id] at hid; exact hid
    · rw [if_neg hc] at hid; exact hid
  have hcontains : ((f.selected.map Prod.fst).contains inv'.id) = true := by
    rw [hid']
    exact List.elem_iff.mpr (List.mem_map.mpr ⟨(x, A), hsel, rfl⟩)
  rw [if_pos hcontains]
  show calculate_single_invoice_paid s.payments inv'.id = inv0.total_paid
  rw [hid', hcons]

/-- C1 witness: on the fixture store (unpaid invoice 5 worth 1000, empty
ledger), creating receipt 100 allocating 400 to invoice 5 and deleting it
again restores the empty ledger and leaves invoice 5's total_paid at its
pre-creation value 0. -/
theorem C1_create_delete_inverse_witness :
    create_sales_receipt c1Store 100 c1Form = Except.ok c1S1
    ∧ delete_payment c1S1 100 = Except.ok c1S2
    ∧ c1S2.payments = c1Store.payments
    ∧ (∀ inv ∈ c1S2.sales_invoices, inv.id = 5 →
        inv.total_paid
          = ({ id := 5, total_amount := 1000, total_paid := 0,
                outstanding := 1000, payment_status := "unpaid" } : Invoice).total_paid) := by
  have hcr : create_sales_receipt c1Store 100 c1Form = Except.ok c1S1 := rfl
  have hdel : delete_payment c1S1 100 = Except.ok c1S2 := rfl
  have h := C1_create_delete_inverse c1Store 100 5 400 c1Form
    { id := 5, total_amount := 1000, total_paid := 0,
      outstanding := 1000, payment_status := "unpaid" }
    c1S1 c1S2 (by simp [c1Store]) (by simp [c1Store]) rfl (by simp [c1Form])
    rfl hcr hdel
  exact ⟨hcr, hdel, h.1, h.2.2⟩

/-! ## Helper lemmas: inventory transfers -/

theorem create_transfer_ok_eq (st : TState) (tid source_id : Nat)
    (recipients : List (Nat × Int × ℚ)) (fresh : List Nat) (st1 : TState)
    (h : create_transfer st tid source_id recipients fresh = Except.ok st1) :
    st1 = applyTransfer st tid source_id recipients fresh := by
  unfold create_transfer at h
  split at h
  · exact absurd h (by simp)
  · split_ifs at h
    exact (Except.ok.inj h).symm

theorem create_transfer_ok_src (st : TState) (tid source_id : Nat)
    (recipients : List (Nat × Int × ℚ)) (fresh : List Nat) (st1 : TState)
    (h : create_transfer st tid source_id recipients fresh = Except.ok st1) :
    ∃ src ∈ st.purchase_challans, src.id = source_id := by
  unfold create_transfer at h
  split at h
  · exact absurd h (by simp)
  · next src heq =>
    exact ⟨src, List.mem_of_find?_eq_some heq, by simpa using List.find?_some heq⟩

theorem reverse_transfer_ok_eq (st : TState) (tid : Nat) (t : Transfer) (st2 : TState)
    (hfind : st.inventory_transfers.find? (fun x => x.id == tid) = some t)
    (hrev : t.is_reversed = false)
    (h : reverse_transfer st tid = Except.ok st2) :
    st2 = applyReverse st tid t := by
  unfold reverse_transfer at h
  split at h
  · next heq => rw [heq] at hfind; exact absurd hfind (by simp)
  · next t' heq =>
    rw [hfind] at heq
    obtain rfl := Option.some.inj heq
    rw [if_neg (by rw [hrev]; simp)] at h
    exact (Except.ok.inj h).symm

theorem incdec_id (source_id : Nat) (tb : Int) (tm : ℚ) (c : TChallan) :
    (incSourceCounters source_id tb tm (decSourceCounters source_id tb tm c)).id
      = c.id := by
  unfold incSourceCounters decSourceCounters
  by_cases h : c.id = source_id <;> simp [h]

theorem counters_roundtrip (source_id : Nat) (tb : Int) (tm : ℚ) (c : TChallan) :
    counters (incSourceCounters source_id tb tm (decSourceCounters source_id tb tm c))
      = counters c := by
  unfold counters incSourceCounters decSourceCounters
  by_cases h : c.id = source_id
  · simp [h]
  · simp [h]

theorem recipient_unaffected (source_id cid : Nat) (tb : Int) (tm : ℚ)
    (r : Nat × Int × ℚ) (hne : cid ≠ source_id) :
    incSourceCounters source_id tb tm
        (decSourceCounters source_id tb tm (mkRecipientChallan source_id cid r))
      = mkRecipientChallan source_id cid r := by
  unfold incSourceCounters decSourceCounters
  rw [if_neg (show ¬ (mkRecipientChallan source_id cid r).id = source_id from hne),
    if_neg (show ¬ (mkRecipientChallan source_id cid r).id = source_id from hne)]

theorem zip_snd_eq (recipients : List (Nat × Int × ℚ)) (fresh : List Nat)
    (hlen : fresh.length ≤ recipients.length) :
    (recipients.zip fresh).map (fun rc => rc.2) = fresh := by
  have h := List.map_snd_zip recipients fresh hlen
  simpa using h

theorem foldl_eraseP_append_fresh :
    ∀ (fresh : List Nat) (B A : List TChallan),
    (∀ cid ∈ fresh, ∀ c ∈ A, c.id ≠ cid) →
    B.map (fun c => c.id) = fresh →
    fresh.foldl (fun cs cid => cs.eraseP (fun c => c.id == cid)) (A ++ B) = A
  | [], B, A, _, hB => by
    have hBnil : B = [] := List.map_eq_nil_iff.mp hB
    simp [hBnil]
  | cid :: rest, B, A, hA, hB => by
    cases B with
    | nil => simp at hB
    | cons b B2 =>
      simp only [List.map_cons, List.cons.injEq] at hB
      obtain ⟨hb, hB2⟩ := hB
      rw [List.foldl_cons]
      have h1 : (A ++ b :: B2).eraseP (fun c => c.id == cid) = A ++ B2 := by
        rw [List.eraseP_append_right _
            (fun x hx => by simpa using hA cid (by simp) x hx),
          List.eraseP_cons_of_pos (by simp [hb])]
      rw [h1]
      exact foldl_eraseP_append_fresh rest B2 A
        (fun c hc x hx => hA c (by simp [hc]) x hx) hB2

theorem foldl_eraseRecipient_eq (tid source_id : Nat)
    (recipients : List (Nat × Int × ℚ)) (fresh : List Nat) (cs : List TChallan) :
    ((mkTransferRecord tid source_id recipients fresh).recipients).foldl
        eraseRecipientChallan cs
      = ((recipients.zip fresh).map (fun rc => rc.2)).foldl
          (fun l cid => l.eraseP (fun c => c.id == cid)) cs := by
  show (((recipients.zip fresh).map (fun rc =>
      ({ party_id := rc.1.1, boxes := rc.1.2.1, meters := rc.1.2.2,
         created_challan_id := some rc.2 } : TRecipient))).foldl
      eraseRecipientChallan cs) = _
  rw [List.foldl_map, List.foldl_map]
  rfl

theorem newChallans_ids (source_id : Nat) (recipients : List (Nat × Int × ℚ))
    (fresh : List Nat) (hlen : fresh.length ≤ recipients.length) :
    ((recipients.zip fresh).map
        (fun rc => mkRecipientChallan source_id rc.2 rc.1)).map (fun c => c.id)
      = fresh := by
  rw [List.map_map]
  exact zip_snd_eq recipients fresh hlen

theorem transfer_roundtrip (st : TState) (tid source_id : Nat)
    (recipients : List (Nat × Int × ℚ)) (fresh : List Nat) (st1 st2 : TState)
    (hlen : fresh.length ≤ recipients.length)
    (hfreshT : ∀ t ∈ st.inventory_transfers, t.id ≠ tid)
    (hfreshC : ∀ cid ∈ fresh, ∀ c ∈ st.purchase_challans, c.id ≠ cid)
    (hcr : create_transfer st tid source_id recipients fresh = Except.ok st1)
    (hrev : reverse_transfer st1 tid = Except.ok st2) :
    st2.purchase_challans.map counters = st.purchase_challans.map counters
    ∧ ∀ cid ∈ fresh, ∀ c ∈ st2.purchase_challans, c.id ≠ cid := by
  obtain ⟨src, hsrcmem, hsrcid⟩ :=
    create_transfer_ok_src st tid source_id recipients fresh st1 hcr
  have hsrcne : ∀ cid ∈ fresh, cid ≠ source_id := by
    intro cid hcid heq
    exact hfreshC cid hcid src hsrcmem (by rw [hsrcid, heq])
  have hst1 := create_transfer_ok_eq st tid source_id recipients fresh st1 hcr
  have ht1 : st1.inventory_transfers
      = st.inventory_transfers ++ [mkTransferRecord tid source_id recipients fresh] := by
    rw [hst1]; rfl
  have hc1 : st1.purchase_challans
      = (st.purchase_challans ++ (recipients.zip fresh).map
          (fun rc => mkRecipientChallan source_id rc.2 rc.1)).map
          (decSourceCounters source_id ((recipients.map (fun r => r.2.1)).sum)
            ((recipients.map (fun r => r.2.2)).sum)) := by
    rw [hst1]; rfl
  have hfind : st1.inventory_transfers.find? (fun x => x.id == tid)
      = some (mkTransferRecord tid source_id recipients fresh) := by
    rw [ht1, find?_append_of_none _ _ _ (fun x hx => by simpa using hfreshT x hx)]
    exact List.find?_cons_of_pos _ (by simp [mkTransferRecord])
  have hst2 := reverse_transfer_ok_eq st1 tid _ st2 hfind rfl hrev
  have hpc2 : st2.purchase_challans
      = (mkTransferRecord tid source_id recipients fresh).recipients.foldl
          eraseRecipientChallan
          (st1.purchase_challans.map
            (incSourceCounters source_id ((recipients.map (fun r => r.2.1)).sum)
              ((recipients.map (fun r => r.2.2)).sum))) := by
    rw [hst2]; rfl
  have hBfix : (((recipients.zip fresh).map
        (fun rc => mkRecipientChallan source_id rc.2 rc.1)).map
        ((incSourceCounters source_id ((recipients.map (fun r => r.2.1)).sum)
            ((recipients.map (fun r => r.2.2)).sum))
          ∘ (decSourceCounters source_id ((recipients.map (fun r => r.2.1)).sum)
            ((recipients.map (fun r => r.2.2)).sum))))
      = (recipients.zip fresh).map (fun rc => mkRecipientChallan source_id rc.2 rc.1) := by
    rw [List.map_map]
    refine List.map_congr_left ?_
    intro rc hrc
    obtain ⟨rp, rcid⟩ := rc
    have hmem : rcid ∈ fresh := (List.of_mem_zip hrc).2
    exact recipient_unaffected source_id rcid _ _ rp (hsrcne rcid hmem)
  have hkey : st2.purchase_challans
      = st.purchase_challans.map
          ((incSourceCounters source_id ((recipients.map (fun r => r.2.1)).sum)
              ((recipients.map (fun r => r.2.2)).sum))
            ∘ (decSourceCounters source_id ((recipients.map (fun r => r.2.1)).sum)
              ((recipients.map (fun r => r.2.2)).sum))) := by
    rw [hpc2, foldl_eraseRecipient_eq, zip_snd_eq recipients fresh hlen, hc1,
      List.map_map, List.map_append, hBfix]
    refine foldl_eraseP_append_fresh fresh _ _ ?_ (newChallans_ids source_id recipients fresh hlen)
    intro cid hcid c hc
    obtain ⟨c0, hc0, rfl⟩ := List.mem_map.mp hc
    show (incSourceCounters source_id _ _ (decSourceCounters source_id _ _ c0)).id ≠ cid
    rw [incdec_id]
    exact hfreshC cid hcid c0 hc0
  constructor
  · rw [hkey, List.map_map]
    refine List.map_congr_left ?_
    intro c _
    exact counters_roundtrip source_id _ _ c
  · intro cid hcid c hc
    rw [hkey] at hc
    obtain ⟨c0, hc0, rfl⟩ := List.mem_map.mp hc
    show (incSourceCounters source_id _ _ (decSourceCounters source_id _ _ c0)).id ≠ cid
    rw [incdec_id]
    exact hfreshC cid hcid c0 hc0

/-- C9: transfer reversal round trip.  For a not-yet-reversed transfer —
modelled as a successful create_transfer with a fresh transfer id and
fresh recipient-challan ids, immediately reversed — the reversal restores
available_boxes, available_meters, transferred_boxes and
transferred_meters of every challan (in particular the source) to exactly
their values before the transfer was created (the `counters` projection of
the whole collection is restored), and every recipient challan the
transfer generated is deleted (no challan with a minted id remains).
Reversing a missing or already-reversed transfer raises the ValueError
before any write, so it is rejected with no challan modified. -/
theorem C9_transfer_reversal_roundtrip :
    (∀ (st : TState) (tid source_id : Nat) (recipients : List (Nat × Int × ℚ))
        (fresh : List Nat) (st1 st2 : TState),
      fresh.length ≤ recipients.length →
      (∀ t ∈ st.inventory_transfers, t.id ≠ tid) →
      (∀ cid ∈ fresh, ∀ c ∈ st.purchase_challans, c.id ≠ cid) →
      create_transfer st tid source_id recipients fresh = Except.ok st1 →
      reverse_transfer st1 tid = Except.ok st2 →
      st2.purchase_challans.map counters = st.purchase_challans.map counters
      ∧ (∀ cid ∈ fresh, ∀ c ∈ st2.purchase_challans, c.id ≠ cid))
    ∧ (∀ (st : TState) (tid : Nat),
      (∀ t, st.inventory_transfers.find? (fun x => x.id == tid) = some t →
        t.is_reversed = true) →
      reverse_transfer st tid = Except.error "Transfer not found or already reversed") := by
  constructor
  · intro st tid source_id recipients fresh st1 st2 hlen hfreshT hfreshC hcr hrev
    exact transfer_roundtrip st tid source_id recipients fresh st1 st2
      hlen hfreshT hfreshC hcr hrev
  · intro st tid h
    unfold reverse_transfer
    cases hf : st.inventory_transfers.find? (fun x => x.id == tid) with
    | none => rfl
    | some t =>
      show (if t.is_reversed = true
          then Except.error "Transfer not found or already reversed"
          else Except.ok (applyReverse st tid t))
        = Except.error "Transfer not found or already reversed"
      rw [h t hf]
      rfl

/-- C9 witness: transferring 4 boxes / 40 meters from challan 1 to party 7
and reversing the transfer restores the fixture counters exactly and
removes the minted recipient challan 2; reversing the now-reversed
transfer again is rejected. -/
theorem C9_transfer_reversal_roundtrip_witness :
    create_transfer c9State 0 1 [(7, 4, 40)] [2] = Except.ok c9S1
    ∧ reverse_transfer c9S1 0 = Except.ok c9S2
    ∧ c9S2.purchase_challans.map counters = c9State.purchase_challans.map counters
    ∧ (∀ cid ∈ [2], ∀ c ∈ c9S2.purchase_challans, c.id ≠ cid)
    ∧ reverse_transfer c9S2 0
      = Except.error "Transfer not found or already reversed" := by
  have hok : create_transfer c9State 0 1 [(7, 4, 40)] [2]
      = Except.ok (applyTransfer c9State 0 1 [(7, 4, 40)] [2]) := by
    unfold create_transfer
    rw [show c9State.purchase_challans.find? (fun c => c.id == 1) = some c9Challan
      from rfl]
    norm_num [c9State, c9Challan]
  have h1 : c9S1 = applyTransfer c9State 0 1 [(7, 4, 40)] [2] := by
    unfold c9S1
    rw [hok]
  have hok2 : reverse_transfer (applyTransfer c9State 0 1 [(7, 4, 40)] [2]) 0
      = Except.ok (applyReverse (applyTransfer c9State 0 1 [(7, 4, 40)] [2]) 0
          (mkTransferRecord 0 1 [(7, 4, 40)] [2])) := rfl
  have h2 : c9S2 = applyReverse (applyTransfer c9State 0 1 [(7, 4, 40)] [2]) 0
      (mkTransferRecord 0 1 [(7, 4, 40)] [2]) := by
    unfold c9S2
    rw [h1, hok2]
  have hcr : create_transfer c9State 0 1 [(7, 4, 40)] [2] = Except.ok c9S1 := by
    rw [h1]; exact hok
  have hrev : reverse_transfer c9S1 0 = Except.ok c9S2 := by
    rw [h1, h2]; exact hok2
  have hmain := C9_transfer_reversal_roundtrip.1 c9State 0 1 [(7, 4, 40)] [2]
    c9S1 c9S2 (by simp) (by simp [c9State]) (by simp [c9State, c9Challan]) hcr hrev
  refine ⟨hcr, hrev, hmain.1, hmain.2, ?_⟩
  refine C9_transfer_reversal_roundtrip.2 c9S2 0 ?_
  intro t ht
  rw [h2] at ht
  have ht2 : (some ({ mkTransferRecord 0 1 [(7, 4, 40)] [2] with
      is_reversed := true, status := "cancelled" } : Transfer) : Option Transfer)
      = some t := by rw [← ht]; rfl
  obtain rfl := Option.some.inj ht2
  rfl
